import Mathlib

/-!
Verification of the asset ingestion and reconciliation pipeline of the
uc-chart-backend repository: the upload flow (`src/api/charts/upload.py`)
and the edit flow (`src/api/charts/{id}/edit.py`) are shallowly embedded
as pure Lean functions.  External collaborators that are not part of the
repository's `src/` tree (the `sonolus_converters` package, the SHA-1
hasher, `get_and_check_file`, the image-variant generator, the gzip
library and the relational query layer) are either taken as parameters of
an environment record or modelled from the specification, as marked in
the individual doc comments.
-/

deriving instance DecidableEq for Except

/-- Byte strings are modelled as lists of naturals. -/
abbrev Bytes := List Nat

/-- An HTTP error, as raised by `HTTPException(status_code, detail)`. -/
structure HttpError where
  code : Nat
  detail : String
deriving DecidableEq, Repr

/-- An uploaded file: FastAPI `UploadFile` exposes `size` and the payload
bytes obtained by `read()`. -/
structure FileU where
  size : Nat
  bytes : Bytes
deriving DecidableEq, Repr

/-- `MAX_FILE_SIZES["jacket"]` from `src/helpers/constants.py`:
`int(7.5 * 1024 * 1024)`. -/
def maxSizeJacket : Nat := 7864320

/-- `MAX_FILE_SIZES["chart"]`: `20 * 1024 * 1024`. -/
def maxSizeChart : Nat := 20971520

/-- `MAX_FILE_SIZES["audio"]`: `50 * 1024 * 1024`. -/
def maxSizeAudio : Nat := 52428800

/-- `MAX_FILE_SIZES["preview"]`: `5 * 1024 * 1024`. -/
def maxSizePreview : Nat := 5242880

/-- `MAX_FILE_SIZES["background"]`: `15 * 1024 * 1024`. -/
def maxSizeBackground : Nat := 15728640

/-- The edit request body `ChartEditData` from `src/helpers/models.py`
(text fields and the per-slot intent flags). -/
structure ChartEditData where
  author : Option String := none
  rating : Option Int := none
  title : Option String := none
  artists : Option String := none
  description : Option String := none
  tags : Option (List String) := some []
  includes_background : Bool := false
  includes_preview : Bool := false
  delete_background : Bool := false
  delete_preview : Bool := false
  includes_audio : Bool := false
  includes_jacket : Bool := false
  includes_chart : Bool := false
deriving DecidableEq, Repr

/-- The upload request body `ChartUploadData` from `src/helpers/models.py`. -/
structure ChartUploadData where
  rating : Int
  title : String
  author : String
  artists : String
  tags : Option (List String) := some []
  description : Option String := none
  includes_background : Bool := false
  includes_preview : Bool := false
deriving DecidableEq, Repr

/-- The chart row read by `charts.get_chart_by_id` in the edit flow,
restricted to the fields the pipeline reads: the owner, the id and the
seven asset-slot hash columns (`preview` and `background` are nullable). -/
structure OldChartData where
  id : String
  author : String
  jacket_file_hash : String
  music_file_hash : String
  chart_file_hash : String
  background_v1_file_hash : String
  background_v3_file_hash : String
  preview_file_hash : Option String
  background_file_hash : Option String
deriving DecidableEq, Repr

/-- The result of `sonolus_converters.detect` as unpacked by the upload
flow: `valid, sus, usc, leveldata, compressed, ld_type`. -/
structure UploadDetect where
  valid : Bool
  sus : Bool
  usc : Bool
  leveldata : Bool
  compressed : Bool
  ld_type : String
deriving DecidableEq, Repr

/-- Environment of external collaborators that live outside `src/`:
the SHA-1 hasher `calculate_sha1` (`helpers/hashing.py`),
`get_and_check_file` (`helpers/file_checks.py`), the
`sonolus_converters` detector and dialect converters,
`generate_backgrounds_resize_jacket` (`helpers/backgrounds.py`),
the `app.debug` flag, and the list of replay object keys currently
stored under the chart's `replays/` path in the object store. -/
structure Env where
  hash : Bytes → String
  checkFile : FileU → String → Except HttpError Bytes
  detectEdit : Bytes → Option (String × String)
  detectUpload : Bytes → UploadDetect
  convertSus : Bytes → Except String Bytes
  convertUsc : Bytes → Except String Bytes
  genBackgrounds : Bytes → Bytes × Bytes × Bytes
  debug : Bool
  replays : List String

/-- Modelled from the spec: the gzip container written by
`gzip.GzipFile(fileobj=..., mode="wb", filename="LevelData", mtime=0)`
(the gzip library is not part of `src/`).  The model keeps the spec's
essential facts: the output embeds the fixed modification time and the
fixed internal filename tag, and it decompresses to exactly the payload
that was written. -/
def gzipCompress (filename : String) (mtime : Nat) (payload : Bytes) : Bytes :=
  [31, 139, 8, mtime, (filename.toList.map Char.toNat).length] ++
    filename.toList.map Char.toNat ++ payload

/-- Modelled from the spec: the matching decompressor, strips the header
and the internal filename and returns the stored payload. -/
def gzipDecompress (b : Bytes) : Option Bytes :=
  match b with
  | 31 :: 139 :: 8 :: _ :: fnLen :: rest => some (rest.drop fnLen)
  | _ => none

/-- The `convert` closure of the upload flow
(`src/api/charts/upload.py`, lines 174-202): dispatch on the detector's
classification; for an already-canonical `LevelData` payload the producer
tag must be `"nextsekai"` unless `app.debug` is set, and an uncompressed
payload is gzip-compressed with `filename="LevelData", mtime=0`.
When the detector marks the payload valid but none of the three dialect
flags is set, the Python closure reads the local name `converted` before
assignment, which raises `UnboundLocalError`. -/
def convertUploadScript (env : Env) (d : UploadDetect) (chartBytes : Bytes) :
    Except String Bytes :=
  if d.sus then env.convertSus chartBytes
  else if d.usc then env.convertUsc chartBytes
  else if d.leveldata then
    if d.ld_type ≠ "nextsekai" ∧ env.debug = false then
      .error (s!"Incorrect LevelData: {d.ld_type} (expected: NextSekai)")
    else if d.compressed = false then
      .ok (gzipCompress "LevelData" 0 chartBytes)
    else .ok chartBytes
  else .error "UnboundLocalError: converted"

/-- Python's `str.endswith`, over the character sequence. -/
def strEndsWith (s t : String) : Bool := t.data.isSuffixOf s.data

/-- Python's `str.startswith`, over the character sequence. -/
def strStartsWith (s t : String) : Bool := t.data.isPrefixOf s.data

/-- The `convert` closure of the edit flow
(`src/api/charts/{id}/edit.py`, lines 99-130): here the detector result is
consumed as a pair `(kind, tag)`; for `kind = "lvd"` the tag must end in
`"pysekai"` (no debug escape hatch in this flow), and a tag not starting
with `"compress_"` marks an uncompressed payload that is gzip-compressed
with `filename="LevelData", mtime=0`. -/
def convertEditScript (env : Env) (kind tag : String) (chartBytes : Bytes) :
    Except String Bytes :=
  if kind = "sus" then env.convertSus chartBytes
  else if kind = "usc" then env.convertUsc chartBytes
  else if kind = "lvd" then
    if strEndsWith tag "pysekai" = false then
      .error (s!"Incorrect LevelData: {tag} (expected: pysekai)")
    else if strStartsWith tag "compress_" = false then
      .ok (gzipCompress "LevelData" 0 chartBytes)
    else .ok chartBytes
  else .error "UnboundLocalError: converted"

/-- The seven hash-column names of `all_hash_keys`
(`src/api/charts/{id}/edit.py`, lines 316-324). -/
inductive HashKey where
  | background_file_hash
  | background_v1_file_hash
  | background_v3_file_hash
  | jacket_file_hash
  | chart_file_hash
  | music_file_hash
  | preview_file_hash
deriving DecidableEq, Repr, Fintype

/-- `getattr(old_chart_data, hash_key)`: the value of a hash column of the
chart row (`None` becomes `none` for the nullable columns). -/
def getHash (old : OldChartData) : HashKey → Option String
  | .background_file_hash => old.background_file_hash
  | .background_v1_file_hash => some old.background_v1_file_hash
  | .background_v3_file_hash => some old.background_v3_file_hash
  | .jacket_file_hash => some old.jacket_file_hash
  | .chart_file_hash => some old.chart_file_hash
  | .music_file_hash => some old.music_file_hash
  | .preview_file_hash => old.preview_file_hash

/-- `kept_hashes` (`edit.py`, lines 326-331): the hash values of all slots
whose column is not listed in `old_deletes`.  (The guard
`hash_key in old_chart_data.model_fields` is always true for these seven
column names, so it is not modelled.) -/
def keptHashes (old : OldChartData) (oldDeletes : List HashKey) :
    Finset (Option String) :=
  (Finset.univ \ oldDeletes.toFinset).image (getHash old)

/-- `deleted_candidate_hashes` (`edit.py`, lines 332-336). -/
def deletedCandidateHashes (old : OldChartData) (oldDeletes : List HashKey) :
    Finset (Option String) :=
  oldDeletes.toFinset.image (getHash old)

/-- `deleted_hashes = deleted_candidate_hashes - kept_hashes`
(`edit.py`, line 337), as the list the delete loop iterates over
(the Python value is a set; distinct values, arbitrary order). -/
def deletedHashesList (old : OldChartData) (oldDeletes : List HashKey) :
    List (Option String) :=
  ((oldDeletes.map (getHash old)).dedup).filter
    (fun h => h ∉ keptHashes old oldDeletes)

/-- One pending object-store upload
(an element of the `s3_uploads` list). -/
structure UploadItem where
  path : String
  hash : String
  bytes : Bytes
  contentType : String
deriving DecidableEq, Repr

/-- The optional replacement files attached to an edit request. -/
structure EditFiles where
  chart : Option FileU := none
  jacket : Option FileU := none
  audio : Option FileU := none
  preview : Option FileU := none
  background : Option FileU := none
deriving DecidableEq, Repr

/-- The chart-file block of the edit flow (`edit.py`, lines 83-160):
size check, flag consistency, format detection, conversion, and the
no-op-replace comparison against the stored `chart_file_hash`.
Returns the slot's upload items, its `old_deletes` additions, the
`chart_updated` flag and the local `chart_hash` value (when assigned). -/
def processChartSlot (env : Env) (old : OldChartData) (data : ChartEditData)
    (file? : Option FileU) (sid cid : String) :
    Except HttpError (List UploadItem × List HashKey × Bool × Option String) :=
  match file? with
  | some file =>
    if file.size > maxSizeChart then
      .error ⟨413, "Uploaded files exceed file size limit."⟩
    else if data.includes_chart then
      match env.detectEdit file.bytes with
      | none => .error ⟨400, "Invalid file format."⟩
      | some (kind, tag) =>
        match convertEditScript env kind tag file.bytes with
        | .error e => .error ⟨400, e⟩
        | .ok chartBytes =>
          let chartHash := env.hash chartBytes
          if chartHash = old.chart_file_hash then
            .ok ([], [], true, some chartHash)
          else
            .ok ([⟨s!"{sid}/{cid}/{chartHash}", chartHash, chartBytes,
                   "application/gzip"⟩],
                 [.chart_file_hash], true, some chartHash)
    else .error ⟨400, "Includes unexpected file."⟩
  | none =>
    if data.includes_chart then .error ⟨400, "File not found."⟩
    else .ok ([], [], false, none)

/-- The jacket block of the edit flow (`edit.py`, lines 161-212).
Note: the no-op comparison hashes the *raw* uploaded bytes, while a
changed jacket is normalized by `generate_backgrounds_resize_jacket`
before being hashed and stored; in the no-op branch the locals
`v1_hash`/`v3_hash` are never assigned.  Returns uploads, deletes, and
the local `jacket_hash`, `v1_hash`, `v3_hash` values (when assigned). -/
def processJacketSlot (env : Env) (old : OldChartData) (data : ChartEditData)
    (file? : Option FileU) (sid cid : String) :
    Except HttpError (List UploadItem × List HashKey ×
      Option String × Option String × Option String) :=
  match file? with
  | some file =>
    if file.size > maxSizeJacket then
      .error ⟨413, "Uploaded files exceed file size limit."⟩
    else if data.includes_jacket then
      match env.checkFile file "image" with
      | .error e => .error e
      | .ok jacketBytesRaw =>
        let jacketHashRaw := env.hash jacketBytesRaw
        if jacketHashRaw = old.jacket_file_hash then
          .ok ([], [], some jacketHashRaw, none, none)
        else
          let v1 := (env.genBackgrounds jacketBytesRaw).1
          let v3 := (env.genBackgrounds jacketBytesRaw).2.1
          let jacketBytes := (env.genBackgrounds jacketBytesRaw).2.2
          let jacketHash := env.hash jacketBytes
          let v1Hash := env.hash v1
          let v3Hash := env.hash v3
          .ok ([⟨s!"{sid}/{cid}/{jacketHash}", jacketHash, jacketBytes,
                 "image/png"⟩,
                ⟨s!"{sid}/{cid}/{v1Hash}", v1Hash, v1, "image/png"⟩,
                ⟨s!"{sid}/{cid}/{v3Hash}", v3Hash, v3, "image/png"⟩],
               [.jacket_file_hash, .background_v1_file_hash,
                .background_v3_file_hash],
               some jacketHash, some v1Hash, some v3Hash)
    else .error ⟨400, "Includes unexpected file."⟩
  | none =>
    if data.includes_jacket then .error ⟨400, "File not found."⟩
    else .ok ([], [], none, none, none)

/-- The audio block of the edit flow (`edit.py`, lines 213-242). -/
def processAudioSlot (env : Env) (old : OldChartData) (data : ChartEditData)
    (file? : Option FileU) (sid cid : String) :
    Except HttpError (List UploadItem × List HashKey × Bool × Option String) :=
  match file? with
  | some file =>
    if file.size > maxSizeAudio then
      .error ⟨413, "Uploaded files exceed file size limit."⟩
    else if data.includes_audio then
      match env.checkFile file "audio/mpeg" with
      | .error e => .error e
      | .ok audioBytes =>
        let audioHash := env.hash audioBytes
        if audioHash = old.music_file_hash then
          .ok ([], [], true, some audioHash)
        else
          .ok ([⟨s!"{sid}/{cid}/{audioHash}", audioHash, audioBytes,
                 "audio/mpeg"⟩],
               [.music_file_hash], true, some audioHash)
    else .error ⟨400, "Includes unexpected file."⟩
  | none =>
    if data.includes_audio then .error ⟨400, "File not found."⟩
    else .ok ([], [], false, none)

/-- The preview block of the edit flow (`edit.py`, lines 243-278):
an optional slot with both an includes flag and a delete flag. -/
def processPreviewSlot (env : Env) (old : OldChartData) (data : ChartEditData)
    (file? : Option FileU) (sid cid : String) :
    Except HttpError (List UploadItem × List HashKey × Option String) :=
  match file? with
  | some file =>
    if file.size > maxSizePreview then
      .error ⟨413, "Uploaded files exceed file size limit."⟩
    else if data.includes_preview ∧ data.delete_preview = false then
      match env.checkFile file "audio/mpeg" with
      | .error e => .error e
      | .ok previewBytes =>
        let previewHash := env.hash previewBytes
        if some previewHash = old.preview_file_hash then
          .ok ([], [], some previewHash)
        else
          .ok ([⟨s!"{sid}/{cid}/{previewHash}", previewHash, previewBytes,
                 "audio/mpeg"⟩],
               [.preview_file_hash], some previewHash)
    else if data.delete_preview then .error ⟨400, "Can't delete and include."⟩
    else .error ⟨400, "Includes unexpected file."⟩
  | none =>
    if data.delete_preview ∧ data.includes_preview = false then
      .ok ([], [.preview_file_hash], none)
    else if data.includes_preview then .error ⟨400, "File not found."⟩
    else .ok ([], [], none)

/-- The background block of the edit flow (`edit.py`, lines 279-314). -/
def processBackgroundSlot (env : Env) (old : OldChartData)
    (data : ChartEditData) (file? : Option FileU) (sid cid : String) :
    Except HttpError (List UploadItem × List HashKey × Option String) :=
  match file? with
  | some file =>
    if file.size > maxSizeBackground then
      .error ⟨413, "Uploaded files exceed file size limit."⟩
    else if data.includes_background ∧ data.delete_background = false then
      match env.checkFile file "image/png" with
      | .error e => .error e
      | .ok backgroundBytes =>
        let backgroundHash := env.hash backgroundBytes
        if some backgroundHash = old.background_file_hash then
          .ok ([], [], some backgroundHash)
        else
          .ok ([⟨s!"{sid}/{cid}/{backgroundHash}", backgroundHash,
                 backgroundBytes, "image/png"⟩],
               [.background_file_hash], some backgroundHash)
    else if data.delete_background then
      .error ⟨400, "Can't delete and include."⟩
    else .error ⟨400, "Includes unexpected file."⟩
  | none =>
    if data.delete_background ∧ data.includes_background = false then
      .ok ([], [.background_file_hash], none)
    else if data.includes_background then .error ⟨400, "File not found."⟩
    else .ok ([], [], none)

/-- The accumulated state of the edit flow's validation/conversion phase:
`s3_uploads`, `old_deletes`, `chart_updated`, and the per-slot local hash
variables whose later use may hit an unassigned name. -/
structure Pipeline where
  uploads : List UploadItem
  oldDeletes : List HashKey
  chartUpdated : Bool
  chartHash : Option String
  jacketHash : Option String
  v1Hash : Option String
  v3Hash : Option String
  audioHash : Option String
  previewHash : Option String
  backgroundHash : Option String
deriving DecidableEq, Repr

/-- The edit flow's validation/conversion phase (`edit.py`, lines 80-314):
the five slot blocks run in source order, appending to `s3_uploads` and
`old_deletes`; the first raised `HTTPException` aborts the request.
No object-store or relational-store operation is performed here. -/
def processAll (env : Env) (old : OldChartData) (data : ChartEditData)
    (files : EditFiles) (sid cid : String) : Except HttpError Pipeline :=
  match processChartSlot env old data files.chart sid cid with
  | .error e => .error e
  | .ok (cu, cd, cUpd, cHash) =>
    match processJacketSlot env old data files.jacket sid cid with
    | .error e => .error e
    | .ok (ju, jd, jHash, v1Hash, v3Hash) =>
      match processAudioSlot env old data files.audio sid cid with
      | .error e => .error e
      | .ok (au, ad, aUpd, aHash) =>
        match processPreviewSlot env old data files.preview sid cid with
        | .error e => .error e
        | .ok (pu, pd, pHash) =>
          match processBackgroundSlot env old data files.background sid cid with
          | .error e => .error e
          | .ok (bu, bd, bHash) =>
            .ok { uploads := cu ++ ju ++ au ++ pu ++ bu,
                  oldDeletes := cd ++ jd ++ ad ++ pd ++ bd,
                  chartUpdated := cUpd || aUpd,
                  chartHash := cHash, jacketHash := jHash,
                  v1Hash := v1Hash, v3Hash := v3Hash,
                  audioHash := aHash, previewHash := pHash,
                  backgroundHash := bHash }

/-- One side effect against a backing store, in issue order. -/
inductive Event where
  | dbFetchChart (id : String)
  | s3Delete (key : String)
  | s3Upload (hash : String) (key : String) (contentType : String)
  | s3ReplayDelete (key : String)
  | dbExecMetadata
  | dbExecFileHash
  | dbDeleteLeaderboards (id : String)
  | dbCreateChart (id : String)
  | dbUpdateCooldown
deriving DecidableEq, Repr

/-- The in-batch upload dedup loop (`upload.py`, lines 255-268 and
`edit.py`, lines 350-363): a hash already in `alr_added_hashes` is
skipped, so each distinct hash is uploaded once. -/
def dedupUploads : List UploadItem → List String → List UploadItem
  | [], _ => []
  | f :: rest, seen =>
    if f.hash ∈ seen then dedupUploads rest seen
    else f :: dedupUploads rest (f.hash :: seen)

/-- Python's f-string rendering of a possibly-`None` hash value inside an
object key. -/
def optStr : Option String → String
  | none => "None"
  | some s => s

/-- The edit flow's object-store batch (`edit.py`, lines 338-371),
entered only when `deleted_hashes or s3_uploads` is truthy: the delete
tasks for `deleted_hashes`, the deduplicated upload tasks, and — when
`chart_updated` — one delete task per object listed under the chart's
`replays/` key path, all gathered jointly before any relational commit. -/
def s3Phase (env : Env) (old : OldChartData) (sid cid : String)
    (p : Pipeline) : List Event :=
  let deletedList := deletedHashesList old p.oldDeletes
  if deletedList ≠ [] ∨ p.uploads ≠ [] then
    deletedList.map (fun h => Event.s3Delete (s!"{sid}/{cid}/" ++ optStr h))
      ++ (dedupUploads p.uploads []).map
          (fun f => Event.s3Upload f.hash f.path f.contentType)
      ++ (if p.chartUpdated then env.replays.map Event.s3ReplayDelete else [])
  else []

/-- The relational phase of the edit flow (`edit.py`, lines 404-410):
execute the metadata update and the file-hash update, then — when
`chart_updated` — delete the chart's leaderboards. -/
def dbPhase (old : OldChartData) (p : Pipeline) : List Event :=
  [Event.dbExecMetadata, Event.dbExecFileHash] ++
    (if p.chartUpdated then [Event.dbDeleteLeaderboards old.id] else [])

/-- The arguments handed to `charts.update_file_hash`
(`edit.py`, lines 388-402). -/
structure FileHashUpdate where
  jacket : Option String
  v1 : Option String
  v3 : Option String
  music : Option String
  chart : Option String
  preview : Option String
  background : Option String
  update_none_preview : Bool
  update_none_background : Bool
deriving DecidableEq, Repr

/-- Evaluation of one conditional expression
`local_hash if flag and file else None`: when the condition is true but
the local was never assigned, Python raises `UnboundLocalError`. -/
def localVar (cond : Bool) (v : Option String) (nm : String) :
    Except HttpError (Option String) :=
  if cond then
    match v with
    | some h => .ok (some h)
    | none => .error ⟨500, "UnboundLocalError: " ++ nm⟩
  else .ok none

/-- Construction of the `update_file_hash` query (`edit.py`, lines
388-402), evaluating the seven conditional hash arguments in source
order.  `v1_hash` and `v3_hash` are unassigned when an attached jacket's
raw bytes hashed equal to the stored jacket hash (the no-op branch at
lines 170-203 skips their assignment). -/
def buildUpdate (data : ChartEditData) (files : EditFiles) (p : Pipeline) :
    Except HttpError FileHashUpdate :=
  match localVar (data.includes_jacket && files.jacket.isSome)
      p.jacketHash "jacket_hash" with
  | .error e => .error e
  | .ok jacket =>
    match localVar (data.includes_jacket && files.jacket.isSome)
        p.v1Hash "v1_hash" with
    | .error e => .error e
    | .ok v1 =>
      match localVar (data.includes_jacket && files.jacket.isSome)
          p.v3Hash "v3_hash" with
      | .error e => .error e
      | .ok v3 =>
        match localVar (data.includes_audio && files.audio.isSome)
            p.audioHash "audio_hash" with
        | .error e => .error e
        | .ok music =>
          match localVar (data.includes_chart && files.chart.isSome)
              p.chartHash "chart_hash" with
          | .error e => .error e
          | .ok chart =>
            match localVar (data.includes_preview && files.preview.isSome)
                p.previewHash "preview_hash" with
            | .error e => .error e
            | .ok preview =>
              match localVar
                  (data.includes_background && files.background.isSome)
                  p.backgroundHash "background_hash" with
              | .error e => .error e
              | .ok background =>
                .ok { jacket := jacket, v1 := v1, v3 := v3, music := music,
                      chart := chart, preview := preview,
                      background := background,
                      update_none_preview := data.delete_preview,
                      update_none_background := data.delete_background }

/-- Modelled from the spec: the effect of `charts.update_file_hash` on
the chart row (`database/charts.py` is not in `src/`).  Per §4.6 the
Metadata Writer commits the new slot→hash mapping only for the slots
actually changed: a `none` argument leaves the column untouched, a
`some` argument overwrites it, and the `update_none_*` flags null the
optional columns. -/
def applyFileHashUpdate (old : OldChartData) (u : FileHashUpdate) :
    OldChartData :=
  { old with
    jacket_file_hash := u.jacket.getD old.jacket_file_hash,
    background_v1_file_hash := u.v1.getD old.background_v1_file_hash,
    background_v3_file_hash := u.v3.getD old.background_v3_file_hash,
    music_file_hash := u.music.getD old.music_file_hash,
    chart_file_hash := u.chart.getD old.chart_file_hash,
    preview_file_hash :=
      if u.update_none_preview then none
      else match u.preview with
        | some h => some h
        | none => old.preview_file_hash,
    background_file_hash :=
      if u.update_none_background then none
      else match u.background with
        | some h => some h
        | none => old.background_file_hash }

/-- Truthiness-guarded text/rating limit checks of the edit flow
(`edit.py`, lines 53-67). -/
def editTextLimitsExceeded (data : ChartEditData) : Bool :=
  (data.description.any fun d => d.length > 1000) ||
  (data.artists.any fun a => a.length > 50) ||
  (data.title.any fun t => t.length > 50) ||
  (data.author.any fun a => a.length > 50) ||
  (data.tags.any fun ts => ts.any fun t => t.length > 10) ||
  (data.tags.any fun ts => ts.length > 3) ||
  (data.rating.any fun r => r > 999) ||
  (data.rating.any fun r => r < -999)

/-- The outcome of an edit request: the side-effect trace in issue order
and either the raised error or the committed chart row. -/
structure EditResult where
  trace : List Event
  result : Except HttpError OldChartData
deriving DecidableEq, Repr

/-- The edit endpoint `main` (`src/api/charts/{id}/edit.py`): id check,
request-body limits, chart lookup (a relational read), ownership check,
the five slot blocks, the diff computation, the object-store batch, the
query construction (where `v1_hash`/`v3_hash` may be unbound) and the
relational commit.  `chartRow` is the database's answer to
`get_chart_by_id`. -/
def editRun (env : Env) (cid : String) (data : ChartEditData)
    (files : EditFiles) (userSid : String) (chartRow : Option OldChartData) :
    EditResult :=
  if cid.length ≠ 32 ∨ ¬ (cid.toList.all Char.isAlphanum) then
    ⟨[], .error ⟨400, "Invalid chart ID."⟩⟩
  else if editTextLimitsExceeded data then
    ⟨[], .error ⟨400, "Length limits exceeded"⟩⟩
  else
    match chartRow with
    | none => ⟨[Event.dbFetchChart cid], .error ⟨404, "Chart not found."⟩⟩
    | some old =>
      if old.author ≠ userSid then
        ⟨[Event.dbFetchChart cid], .error ⟨403, "bro this aint your chart"⟩⟩
      else
        match processAll env old data files userSid cid with
        | .error e => ⟨[Event.dbFetchChart cid], .error e⟩
        | .ok p =>
          let s3t := s3Phase env old userSid cid p
          match buildUpdate data files p with
          | .error e => ⟨Event.dbFetchChart cid :: s3t, .error e⟩
          | .ok u =>
            ⟨Event.dbFetchChart cid :: s3t ++ dbPhase old p,
             .ok (applyFileHashUpdate old u)⟩

/-- The converted/checked byte payloads produced by the upload flow's
validation phase, before any store operation. -/
structure UploadPipe where
  v1 : Bytes
  v3 : Bytes
  jacketBytes : Bytes
  chartBytes : Bytes
  audioBytes : Bytes
  previewBytes : Option Bytes
  backgroundBytes : Option Bytes
deriving DecidableEq, Repr

/-- Text/rating limit checks of the upload flow (`upload.py`, lines
47-61); unlike the edit flow, the rating bounds are checked
unconditionally. -/
def uploadTextLimitsExceeded (data : ChartUploadData) : Bool :=
  (data.description.any fun d => d.length > 1000) ||
  decide (data.artists.length > 50) ||
  decide (data.title.length > 50) ||
  decide (data.author.length > 50) ||
  (data.tags.any fun ts => ts.any fun t => t.length > 10) ||
  (data.tags.any fun ts => ts.length > 3) ||
  decide (data.rating > 999) ||
  decide (data.rating < -999)

/-- The upload flow's validation/conversion phase (`upload.py`, lines
42-251): request-body limits, the cooldown gate, the per-kind size
checks, jacket normalization, chart-script detection and conversion, and
the content reads of the audio/preview/background files.  No
object-store or relational-store operation is performed here
(`session.user()` belongs to the out-of-scope session collaborator). -/
def uploadPipeline (env : Env) (data : ChartUploadData)
    (jacketF chartF audioF : FileU) (previewF backgroundF : Option FileU)
    (cooldownActive : Bool) : Except HttpError UploadPipe :=
  if uploadTextLimitsExceeded data then
    .error ⟨400, "Length limits exceeded"⟩
  else if cooldownActive && !env.debug then
    .error ⟨429, "On cooldown."⟩
  else if jacketF.size > maxSizeJacket ∨ chartF.size > maxSizeChart ∨
      audioF.size > maxSizeAudio then
    .error ⟨413, "Uploaded files exceed file size limit."⟩
  else if previewF.any fun f => f.size > maxSizePreview then
    .error ⟨413, "Uploaded files exceed file size limit."⟩
  else if backgroundF.any fun f => f.size > maxSizeBackground then
    .error ⟨413, "Uploaded files exceed file size limit."⟩
  else
    match env.checkFile jacketF "image" with
    | .error e => .error e
    | .ok jbRaw =>
      let v1 := (env.genBackgrounds jbRaw).1
      let v3 := (env.genBackgrounds jbRaw).2.1
      let jb := (env.genBackgrounds jbRaw).2.2
      let d := env.detectUpload chartF.bytes
      if d.valid = false then .error ⟨400, "Invalid file format."⟩
      else
        match convertUploadScript env d chartF.bytes with
        | .error e => .error ⟨400, e⟩
        | .ok cb =>
          match env.checkFile audioF "audio/mpeg" with
          | .error e => .error e
          | .ok ab =>
            match (match previewF with
                   | none => Except.ok none
                   | some f => (env.checkFile f "audio/mpeg").map some) with
            | .error e => .error e
            | .ok pb =>
              match (match backgroundF with
                     | none => Except.ok none
                     | some f => (env.checkFile f "image/png").map some) with
              | .error e => .error e
              | .ok bb => .ok ⟨v1, v3, jb, cb, ab, pb, bb⟩

/-- The `s3_uploads` list of the upload flow, in append order
(`upload.py`: v1 and v3 at lines 138-154, the normalized jacket at 155,
the converted chart at 209, audio at 220, then the optional preview and
background). -/
def uploadItemsOf (env : Env) (sid cid : String) (r : UploadPipe) :
    List UploadItem :=
  ⟨s!"{sid}/{cid}/" ++ env.hash r.v1, env.hash r.v1, r.v1, "image/png"⟩ ::
  ⟨s!"{sid}/{cid}/" ++ env.hash r.v3, env.hash r.v3, r.v3, "image/png"⟩ ::
  ⟨s!"{sid}/{cid}/" ++ env.hash r.jacketBytes, env.hash r.jacketBytes,
    r.jacketBytes, "image/png"⟩ ::
  ⟨s!"{sid}/{cid}/" ++ env.hash r.chartBytes, env.hash r.chartBytes,
    r.chartBytes, "application/gzip"⟩ ::
  ⟨s!"{sid}/{cid}/" ++ env.hash r.audioBytes, env.hash r.audioBytes,
    r.audioBytes, "audio/mpeg"⟩ ::
  ((match r.previewBytes with
    | some pb => [⟨s!"{sid}/{cid}/" ++ env.hash pb, env.hash pb, pb,
                   "audio/mpeg"⟩]
    | none => []) ++
   (match r.backgroundBytes with
    | some bb => [⟨s!"{sid}/{cid}/" ++ env.hash bb, env.hash bb, bb,
                   "image/png"⟩]
    | none => []))

/-- The `Chart` row handed to `charts.create_chart`
(`upload.py`, lines 270-288), restricted to the owner/id/hash columns. -/
def mkUploadRecord (env : Env) (sid cid : String) (r : UploadPipe) :
    OldChartData :=
  { id := cid, author := sid,
    jacket_file_hash := env.hash r.jacketBytes,
    music_file_hash := env.hash r.audioBytes,
    chart_file_hash := env.hash r.chartBytes,
    background_v1_file_hash := env.hash r.v1,
    background_v3_file_hash := env.hash r.v3,
    preview_file_hash := r.previewBytes.map env.hash,
    background_file_hash := r.backgroundBytes.map env.hash }

/-- The outcome of an upload request: the side-effect trace in issue
order and either the raised error or the created chart row. -/
structure UploadResult where
  trace : List Event
  result : Except HttpError OldChartData
deriving DecidableEq, Repr

/-- The upload endpoint `main` (`src/api/charts/upload.py`): the
validation/conversion phase, then the deduplicated object-store upload
batch (lines 252-269), then the relational insert of the chart row and
the cooldown update (lines 294-298). -/
def uploadRun (env : Env) (data : ChartUploadData)
    (jacketF chartF audioF : FileU) (previewF backgroundF : Option FileU)
    (sid cid : String) (cooldownActive : Bool) : UploadResult :=
  match uploadPipeline env data jacketF chartF audioF previewF backgroundF
      cooldownActive with
  | .error e => ⟨[], .error e⟩
  | .ok r =>
    ⟨(dedupUploads (uploadItemsOf env sid cid r) []).map
        (fun f => Event.s3Upload f.hash f.path f.contentType)
      ++ [Event.dbCreateChart cid, Event.dbUpdateCooldown],
     .ok (mkUploadRecord env sid cid r)⟩

/-- `true` on the successful branch of an `Except`. -/
def exOk {ε α : Type _} : Except ε α → Bool
  | .ok _ => true
  | .error _ => false

/-- Object-store events. -/
def isS3Event : Event → Bool
  | .s3Delete _ => true
  | .s3Upload _ _ _ => true
  | .s3ReplayDelete _ => true
  | _ => false

/-- Relational-store mutation events (the chart lookup is a read). -/
def isDbWrite : Event → Bool
  | .dbExecMetadata => true
  | .dbExecFileHash => true
  | .dbDeleteLeaderboards _ => true
  | .dbCreateChart _ => true
  | .dbUpdateCooldown => true
  | _ => false

/-- Any relational-store event, reads included. -/
def isDbEvent : Event → Bool
  | .dbFetchChart _ => true
  | e => isDbWrite e

/-- The metadata-commit statements of the edit flow. -/
def isCommitEvent : Event → Bool
  | .dbExecMetadata => true
  | .dbExecFileHash => true
  | _ => false

/-- Checks the discipline "blob deletion is issued only after the
metadata commit": scanning the trace in issue order, no `s3Delete` may
occur before the first commit statement. -/
def deleteOnlyAfterCommit : List Event → Bool
  | [] => true
  | e :: rest =>
    if isCommitEvent e then true
    else
      match e with
      | .s3Delete _ => false
      | _ => deleteOnlyAfterCommit rest

/-- Checks that no object-store operation is issued after a
relational-store mutation: once a mutation appears, the remainder of the
trace holds no object-store event. -/
def blobOpsPrecedeCommit : List Event → Bool
  | [] => true
  | e :: rest =>
    (!(isDbWrite e) || rest.all fun x => !(isS3Event x)) &&
      blobOpsPrecedeCommit rest

/-- A concrete environment for exercising the flows on closed inputs. -/
def baseEnv : Env :=
  { hash := fun b => "h" ++ toString b,
    checkFile := fun f _ => .ok f.bytes,
    detectEdit := fun _ => none,
    detectUpload := fun _ => ⟨false, false, false, false, false, ""⟩,
    convertSus := fun _ => .error "parse failed",
    convertUsc := fun _ => .error "parse failed",
    genBackgrounds := fun b => (0 :: b, 1 :: b, b),
    debug := false,
    replays := [] }

/-- A well-formed 32-character alphanumeric chart id. -/
def wCid : String := "aaaabbbbccccddddeeeeffff00001111"

/-- A concrete chart row with pairwise-distinct stored hashes. -/
def oldBase : OldChartData :=
  { id := wCid, author := "owner1",
    jacket_file_hash := "HJ", music_file_hash := "Ha",
    chart_file_hash := "HC", background_v1_file_hash := "HV1",
    background_v3_file_hash := "HV3",
    preview_file_hash := none, background_file_hash := none }

/-- A debug-mode environment whose detector classifies the submitted
script as an already-canonical payload with producer tag `"nextsekai"`. -/
def envDbg : Env :=
  { baseEnv with debug := true,
                 detectEdit := fun _ => some ("lvd", "nextsekai") }

/-- Some file attached to an edit request exceeds its per-kind maximum
size. -/
def editAnyOversized (files : EditFiles) : Bool :=
  (files.chart.any fun f => f.size > maxSizeChart) ||
  (files.jacket.any fun f => f.size > maxSizeJacket) ||
  (files.audio.any fun f => f.size > maxSizeAudio) ||
  (files.preview.any fun f => f.size > maxSizePreview) ||
  (files.background.any fun f => f.size > maxSizeBackground)

/-- Some file attached to an upload request exceeds its per-kind maximum
size. -/
def uploadAnyOversized (jF cF aF : FileU) (pF bF : Option FileU) : Bool :=
  decide (jF.size > maxSizeJacket) || decide (cF.size > maxSizeChart) ||
  decide (aF.size > maxSizeAudio) ||
  (pF.any fun f => f.size > maxSizePreview) ||
  (bF.any fun f => f.size > maxSizeBackground)

/-- The per-slot intent flags of an edit request are inconsistent with
the attached files: an includes flag without a matching file, a file
without its includes flag, or simultaneous include and delete on an
optional slot. -/
def editFlagsInconsistent (data : ChartEditData) (files : EditFiles) : Bool :=
  (files.chart.isSome != data.includes_chart) ||
  (files.jacket.isSome != data.includes_jacket) ||
  (files.audio.isSome != data.includes_audio) ||
  ((files.preview.isSome && !data.includes_preview) ||
   (!files.preview.isSome && data.includes_preview) ||
   (data.includes_preview && data.delete_preview)) ||
  ((files.background.isSome && !data.includes_background) ||
   (!files.background.isSome && data.includes_background) ||
   (data.includes_background && data.delete_background))

/-- The content hash carried by an `s3Upload` event. -/
def uploadEventHash : Event → Option String
  | .s3Upload h _ _ => some h
  | _ => none

/-- Number of blob-create operations for hash `h` in a trace. -/
def uploadCount (t : List Event) (h : String) : Nat :=
  (t.filter fun e => uploadEventHash e = some h).length

/-- An upload-flow environment whose detector classifies the script as a
compressed canonical payload. -/
def envU : Env :=
  { baseEnv with detectUpload :=
      fun _ => ⟨true, false, false, true, true, "nextsekai"⟩ }

/-- Concrete valid upload metadata. -/
def dataU : ChartUploadData := ⟨0, "t", "a", "r", some [], none, false, false⟩

/-- The validation-phase payloads of the concrete witness upload, whose
audio and preview files carry identical bytes. -/
def pipeU : UploadPipe := ⟨[0, 5], [1, 5], [5], [9], [7], some [7], none⟩

/-- Blob create/delete operations against the object store. -/
def isBlobOp : Event → Bool
  | .s3Upload _ _ _ => true
  | .s3Delete _ => true
  | _ => false

/-- The trace contains at least one blob create or delete. -/
def hasBlobOp (t : List Event) : Bool := t.any isBlobOp

/-- Replay-object delete events. -/
def isReplayDelete : Event → Bool
  | .s3ReplayDelete _ => true
  | _ => false

/-- An environment whose hasher always answers the stored audio hash,
with one replay blob present. -/
def envR : Env := { baseEnv with hash := fun _ => "Ha", replays := ["r1"] }

/-- An environment with one replay blob present and a hasher that gives
the resubmitted audio a fresh hash. -/
def envR2 : Env := { baseEnv with replays := ["r1"] }

/-- C1: for every prior asset set and every list of replaced/removed hash
columns, the set of hashes actually deleted is disjoint from the set of
hash values of the surviving slots: a value still held by any column not
being replaced or removed — including a derived jacket-variant sibling
column holding the same value — is never in the delete set. -/
theorem deleted_hashes_disjoint_from_kept (old : OldChartData)
    (oldDeletes : List HashKey) :
    (deletedHashesList old oldDeletes).toFinset ∩ keptHashes old oldDeletes
      = ∅ := by
  ext h
  simp [deletedHashesList, List.mem_filter]

/-- Auxiliary: the modelled gzip container always decompresses to the
payload that was written. -/
theorem gzip_roundtrip (fn : String) (m : Nat) (p : Bytes) :
    gzipDecompress (gzipCompress fn m p) = some p := by
  simp [gzipCompress, gzipDecompress, List.drop_left]

/-- C9: converting an uncompressed already-canonical chart payload (in
either flow, with an accepted producer tag) yields exactly the gzip
container with fixed mtime `0` and internal filename `"LevelData"`, and
that container decompresses back to the original input bytes; being a
function of the bytes alone, byte-identical inputs give byte-identical
stored output. -/
theorem canonical_payload_compression_roundtrip (env : Env)
    (d : UploadDetect) (b : Bytes) (tag : String)
    (hs : d.sus = false) (hu : d.usc = false) (hl : d.leveldata = true)
    (hc : d.compressed = false)
    (hp : d.ld_type = "nextsekai" ∨ env.debug = true)
    (he : strEndsWith tag "pysekai" = true)
    (hcp : strStartsWith tag "compress_" = false) :
    convertUploadScript env d b = .ok (gzipCompress "LevelData" 0 b) ∧
    convertEditScript env "lvd" tag b = .ok (gzipCompress "LevelData" 0 b) ∧
    gzipDecompress (gzipCompress "LevelData" 0 b) = some b := by
  refine ⟨?_, ?_, gzip_roundtrip _ _ _⟩
  · have hcond : ¬ (d.ld_type ≠ "nextsekai" ∧ env.debug = false) := by
      rcases hp with h | h
      · simp [h]
      · simp [h]
    simp [convertUploadScript, hs, hu, hl, hc, hcond]
  · simp [convertEditScript, he, hcp]

/-- Witness for C9 at a concrete canonical uncompressed payload. -/
theorem canonical_payload_compression_roundtrip_witness :
    convertUploadScript baseEnv
        ⟨true, false, false, true, false, "nextsekai"⟩ [1, 2, 3]
      = .ok (gzipCompress "LevelData" 0 [1, 2, 3]) ∧
    convertEditScript baseEnv "lvd" "pysekai" [1, 2, 3]
      = .ok (gzipCompress "LevelData" 0 [1, 2, 3]) ∧
    gzipDecompress (gzipCompress "LevelData" 0 [1, 2, 3]) = some [1, 2, 3] :=
  canonical_payload_compression_roundtrip baseEnv
    ⟨true, false, false, true, false, "nextsekai"⟩ [1, 2, 3] "pysekai"
    rfl rfl rfl rfl (Or.inl rfl) (by decide) (by decide)

/-- Counterexample to C5 as stated: in debug mode the upload flow's
converter accepts an arbitrary producer tag, but the edit flow still
rejects a non-matching tag — the escape hatch is not uniform across the
two flows. -/
theorem debug_producer_escape_not_uniform_cex :
    envDbg.debug = true ∧
    exOk (convertUploadScript envDbg
      ⟨true, false, false, true, true, "someother"⟩ [2]) = true ∧
    (editRun envDbg wCid { includes_chart := true }
        { chart := some ⟨5, [2]⟩ } "owner1" (some oldBase)).result
      = .error ⟨400, "Incorrect LevelData: nextsekai (expected: pysekai)"⟩ := by
  refine ⟨rfl, rfl, ?_⟩
  decide

/-- C5 amended: a canonical payload whose producer tag does not match the
expected producer is rejected with an unsupported-format error, but the
non-production/debug escape hatch exists only in the upload flow: in
debug mode the upload converter accepts any producer tag, while the edit
converter rejects a tag that does not end in its expected producer
regardless of the debug flag. -/
theorem producer_tag_rejection_and_debug_escape (env : Env)
    (d : UploadDetect) (b : Bytes) (tag : String)
    (hs : d.sus = false) (hu : d.usc = false) (hl : d.leveldata = true) :
    (env.debug = true → exOk (convertUploadScript env d b) = true) ∧
    (env.debug = false → d.ld_type ≠ "nextsekai" →
      exOk (convertUploadScript env d b) = false) ∧
    (strEndsWith tag "pysekai" = false →
      exOk (convertEditScript env "lvd" tag b) = false) := by
  refine ⟨?_, ?_, ?_⟩
  · intro hdbg
    have hcond : ¬ (d.ld_type ≠ "nextsekai" ∧ env.debug = false) := by
      simp [hdbg]
    rcases hcp : d.compressed with _ | _ <;>
      simp [convertUploadScript, hs, hu, hl, hcond, hcp, exOk]
  · intro hdbg hld
    simp [convertUploadScript, hs, hu, hl, hld, hdbg, exOk]
  · intro hend
    simp [convertEditScript, hend, exOk]

/-- Witness for the amended C5 at concrete inputs: a debug-mode upload
with a foreign producer tag is accepted, a production upload with the
same tag is rejected, and the edit converter rejects it in debug mode. -/
theorem producer_tag_rejection_and_debug_escape_witness :
    exOk (convertUploadScript envDbg
      ⟨true, false, false, true, true, "zzz"⟩ [2]) = true ∧
    exOk (convertUploadScript baseEnv
      ⟨true, false, false, true, true, "zzz"⟩ [2]) = false ∧
    exOk (convertEditScript envDbg "lvd" "zzz" [2]) = false :=
  ⟨(producer_tag_rejection_and_debug_escape envDbg
      ⟨true, false, false, true, true, "zzz"⟩ [2] "zzz" rfl rfl rfl).1 rfl,
   (producer_tag_rejection_and_debug_escape baseEnv
      ⟨true, false, false, true, true, "zzz"⟩ [2] "zzz" rfl rfl rfl).2.1 rfl
      (by decide),
   (producer_tag_rejection_and_debug_escape envDbg
      ⟨true, false, false, true, true, "zzz"⟩ [2] "zzz" rfl rfl rfl).2.2
      (by decide)⟩

/-- Counterexample to C2 as stated: a successful edit that removes the
stored background issues its object-store blob delete before the
metadata commit (the delete is in the pre-commit batch, not deferred
until after the commit succeeded). -/
theorem blob_delete_issued_before_commit_cex :
    exOk (editRun baseEnv wCid { delete_background := true }
        {} "owner1"
        (some { oldBase with background_file_hash := some "Hb" })).result
      = true ∧
    deleteOnlyAfterCommit
      (editRun baseEnv wCid { delete_background := true }
        {} "owner1"
        (some { oldBase with background_file_hash := some "Hb" })).trace
      = false := by decide

/-- Every event of the edit flow's object-store batch is an object-store
event. -/
theorem s3Phase_all_s3 (env : Env) (old : OldChartData) (sid cid : String)
    (p : Pipeline) : ∀ e ∈ s3Phase env old sid cid p, isS3Event e = true := by
  intro e he
  simp only [s3Phase] at he
  split at he
  · rcases List.mem_append.1 he with h | h
    · rcases List.mem_append.1 h with h2 | h2
      · rcases List.mem_map.1 h2 with ⟨x, _, hx⟩
        simp [← hx, isS3Event]
      · rcases List.mem_map.1 h2 with ⟨x, _, hx⟩
        simp [← hx, isS3Event]
    · split at h
      · rcases List.mem_map.1 h with ⟨x, _, hx⟩
        simp [← hx, isS3Event]
      · simp at h
  · simp at he

/-- An object-store event is not a relational-store mutation. -/
theorem isS3_not_dbWrite (e : Event) (h : isS3Event e = true) :
    isDbWrite e = false := by
  cases e <;> simp_all [isS3Event, isDbWrite]

/-- Prepending events that are not relational-store mutations preserves
the blob-operations-precede-commit discipline. -/
theorem blobOps_append (l1 l2 : List Event)
    (h1 : ∀ e ∈ l1, isDbWrite e = false)
    (h2 : blobOpsPrecedeCommit l2 = true) :
    blobOpsPrecedeCommit (l1 ++ l2) = true := by
  induction l1 with
  | nil => simpa using h2
  | cons e t ih =>
    have he := h1 e (by simp)
    have ht : ∀ x ∈ t, isDbWrite x = false := fun x hx => h1 x (by simp [hx])
    simp [blobOpsPrecedeCommit, he, ih ht]

/-- The relational phase of the edit flow contains no object-store
event. -/
theorem blobOps_dbPhase (old : OldChartData) (p : Pipeline) :
    blobOpsPrecedeCommit (dbPhase old p) = true := by
  cases hcu : p.chartUpdated <;>
    simp [dbPhase, blobOpsPrecedeCommit, isDbWrite, isS3Event, hcu]

/-- C2 amended: in the edit flow, blob creation is completed before the
metadata commit, but blob deletion of now-unreferenced old hashes is
issued in the same pre-commit object-store batch as creation, not after
the commit: in every run's trace, all object-store operations (creates,
deletes and replay deletes alike) precede every relational-store
mutation, and no object-store operation follows the metadata commit. -/
theorem edit_blob_batch_precedes_metadata_commit (env : Env) (cid : String)
    (data : ChartEditData) (files : EditFiles) (sid : String)
    (row : Option OldChartData) :
    blobOpsPrecedeCommit (editRun env cid data files sid row).trace = true := by
  unfold editRun
  split
  · rfl
  split
  · rfl
  split
  · simp [blobOpsPrecedeCommit, isDbWrite]
  next old =>
    split
    · simp [blobOpsPrecedeCommit, isDbWrite]
    split
    · simp [blobOpsPrecedeCommit, isDbWrite]
    next p hp =>
      split
      · have hall : ∀ e ∈ s3Phase env old sid cid p, isDbWrite e = false :=
          fun e he => isS3_not_dbWrite e (s3Phase_all_s3 env old sid cid p e he)
        have h := blobOps_append (s3Phase env old sid cid p) [] hall rfl
        simp only [List.append_nil] at h
        simp [blobOpsPrecedeCommit, isDbWrite, h]
      · have hall : ∀ e ∈ s3Phase env old sid cid p, isDbWrite e = false :=
          fun e he => isS3_not_dbWrite e (s3Phase_all_s3 env old sid cid p e he)
        have h := blobOps_append (s3Phase env old sid cid p) (dbPhase old p)
          hall (blobOps_dbPhase old p)
        simp [blobOpsPrecedeCommit, isDbWrite, h]

/-- C3 (code bug): an edit that resubmits a jacket whose bytes hash to
the stored jacket hash takes the no-op branch, which never assigns the
locals `v1_hash`/`v3_hash`; the later `update_file_hash` construction
then reads `v1_hash` and the request dies with `UnboundLocalError`
(HTTP 500) — the metadata commit never executes, instead of the edit
succeeding as a no-op.  (The audio slot behaves as the claim states:
see the no-op audio lemma below.) -/
theorem edit_identical_jacket_resubmit_crashes :
    editRun { baseEnv with hash := fun _ => "HJ" } wCid
        { includes_jacket := true } { jacket := some ⟨10, [3]⟩ }
        "owner1" (some oldBase)
      = ⟨[Event.dbFetchChart wCid],
         .error ⟨500, "UnboundLocalError: v1_hash"⟩⟩ := by decide

/-- Inversion of the edit flow's validation phase: success yields a
successful result for each of the five slot blocks, and the pipeline is
their concatenation in source order. -/
theorem processAll_ok_inv {env : Env} {old : OldChartData}
    {data : ChartEditData} {files : EditFiles} {sid cid : String}
    {p : Pipeline} (h : processAll env old data files sid cid = .ok p) :
    ∃ rc rj ra rp rb,
      processChartSlot env old data files.chart sid cid = .ok rc ∧
      processJacketSlot env old data files.jacket sid cid = .ok rj ∧
      processAudioSlot env old data files.audio sid cid = .ok ra ∧
      processPreviewSlot env old data files.preview sid cid = .ok rp ∧
      processBackgroundSlot env old data files.background sid cid = .ok rb ∧
      p = { uploads := rc.1 ++ rj.1 ++ ra.1 ++ rp.1 ++ rb.1,
            oldDeletes := rc.2.1 ++ rj.2.1 ++ ra.2.1 ++ rp.2.1 ++ rb.2.1,
            chartUpdated := rc.2.2.1 || ra.2.2.1,
            chartHash := rc.2.2.2, jacketHash := rj.2.2.1,
            v1Hash := rj.2.2.2.1, v3Hash := rj.2.2.2.2,
            audioHash := ra.2.2.2, previewHash := rp.2.2,
            backgroundHash := rb.2.2 } := by
  simp only [processAll] at h
  cases hc : processChartSlot env old data files.chart sid cid with
  | error e => simp [hc] at h
  | ok rc =>
    obtain ⟨cu, cd, cUpd, cHash⟩ := rc
    simp only [hc] at h
    cases hj : processJacketSlot env old data files.jacket sid cid with
    | error e => simp [hj] at h
    | ok rj =>
      obtain ⟨ju, jd, jH, v1H, v3H⟩ := rj
      simp only [hj] at h
      cases ha : processAudioSlot env old data files.audio sid cid with
      | error e => simp [ha] at h
      | ok ra =>
        obtain ⟨au, ad, aUpd, aH⟩ := ra
        simp only [ha] at h
        cases hp : processPreviewSlot env old data files.preview sid cid with
        | error e => simp [hp] at h
        | ok rp =>
          obtain ⟨pu, pd, pH⟩ := rp
          simp only [hp] at h
          cases hb : processBackgroundSlot env old data files.background sid cid with
          | error e => simp [hb] at h
          | ok rb =>
            obtain ⟨bu, bd, bH⟩ := rb
            simp only [hb] at h
            refine ⟨(cu, cd, cUpd, cHash), (ju, jd, jH, v1H, v3H),
              (au, ad, aUpd, aH), (pu, pd, pH), (bu, bd, bH),
              rfl, rfl, rfl, rfl, rfl, ?_⟩
            simpa using h.symm

/-- A successful chart block implies the attached chart file was within
the size limit. -/
theorem chartSlot_ok_size {env : Env} {old : OldChartData}
    {data : ChartEditData} {sid cid : String} {file? : Option FileU} {r}
    (h : processChartSlot env old data file? sid cid = .ok r) :
    (file?.any fun f => f.size > maxSizeChart) = false := by
  cases file? with
  | none => rfl
  | some f =>
    simp only [processChartSlot] at h
    split at h
    · simp at h
    · next hsz => simpa using hsz

/-- A successful jacket block implies the attached jacket was within the
size limit. -/
theorem jacketSlot_ok_size {env : Env} {old : OldChartData}
    {data : ChartEditData} {sid cid : String} {file? : Option FileU} {r}
    (h : processJacketSlot env old data file? sid cid = .ok r) :
    (file?.any fun f => f.size > maxSizeJacket) = false := by
  cases file? with
  | none => rfl
  | some f =>
    simp only [processJacketSlot] at h
    split at h
    · simp at h
    · next hsz => simpa using hsz

/-- A successful audio block implies the attached audio was within the
size limit. -/
theorem audioSlot_ok_size {env : Env} {old : OldChartData}
    {data : ChartEditData} {sid cid : String} {file? : Option FileU} {r}
    (h : processAudioSlot env old data file? sid cid = .ok r) :
    (file?.any fun f => f.size > maxSizeAudio) = false := by
  cases file? with
  | none => rfl
  | some f =>
    simp only [processAudioSlot] at h
    split at h
    · simp at h
    · next hsz => simpa using hsz

/-- A successful preview block implies the attached preview was within
the size limit. -/
theorem previewSlot_ok_size {env : Env} {old : OldChartData}
    {data : ChartEditData} {sid cid : String} {file? : Option FileU} {r}
    (h : processPreviewSlot env old data file? sid cid = .ok r) :
    (file?.any fun f => f.size > maxSizePreview) = false := by
  cases file? with
  | none => rfl
  | some f =>
    simp only [processPreviewSlot] at h
    split at h
    · simp at h
    · next hsz => simpa using hsz

/-- A successful background block implies the attached background was
within the size limit. -/
theorem backgroundSlot_ok_size {env : Env} {old : OldChartData}
    {data : ChartEditData} {sid cid : String} {file? : Option FileU} {r}
    (h : processBackgroundSlot env old data file? sid cid = .ok r) :
    (file?.any fun f => f.size > maxSizeBackground) = false := by
  cases file? with
  | none => rfl
  | some f =>
    simp only [processBackgroundSlot] at h
    split at h
    · simp at h
    · next hsz => simpa using hsz

/-- A successful chart block implies the chart file's presence matched
its includes flag. -/
theorem chartSlot_ok_flags {env : Env} {old : OldChartData}
    {data : ChartEditData} {sid cid : String} {file? : Option FileU} {r}
    (h : processChartSlot env old data file? sid cid = .ok r) :
    file?.isSome = data.includes_chart := by
  cases file? with
  | none =>
    simp only [processChartSlot] at h
    split at h
    · simp at h
    · next hinc => simp [Bool.not_eq_true] at hinc; simp [hinc]
  | some f =>
    simp only [processChartSlot] at h
    split at h
    · simp at h
    · split at h
      · next hinc => simp [hinc]
      · simp at h

/-- A successful jacket block implies the jacket file's presence matched
its includes flag. -/
theorem jacketSlot_ok_flags {env : Env} {old : OldChartData}
    {data : ChartEditData} {sid cid : String} {file? : Option FileU} {r}
    (h : processJacketSlot env old data file? sid cid = .ok r) :
    file?.isSome = data.includes_jacket := by
  cases file? with
  | none =>
    simp only [processJacketSlot] at h
    split at h
    · simp at h
    · next hinc => simp [Bool.not_eq_true] at hinc; simp [hinc]
  | some f =>
    simp only [processJacketSlot] at h
    split at h
    · simp at h
    · split at h
      · next hinc => simp [hinc]
      · simp at h

/-- A successful audio block implies the audio file's presence matched
its includes flag. -/
theorem audioSlot_ok_flags {env : Env} {old : OldChartData}
    {data : ChartEditData} {sid cid : String} {file? : Option FileU} {r}
    (h : processAudioSlot env old data file? sid cid = .ok r) :
    file?.isSome = data.includes_audio := by
  cases file? with
  | none =>
    simp only [processAudioSlot] at h
    split at h
    · simp at h
    · next hinc => simp [Bool.not_eq_true] at hinc; simp [hinc]
  | some f =>
    simp only [processAudioSlot] at h
    split at h
    · simp at h
    · split at h
      · next hinc => simp [hinc]
      · simp at h

/-- A successful preview block implies none of the three inconsistent
flag/file combinations held for the preview slot. -/
theorem previewSlot_ok_flags {env : Env} {old : OldChartData}
    {data : ChartEditData} {sid cid : String} {file? : Option FileU} {r}
    (h : processPreviewSlot env old data file? sid cid = .ok r) :
    ((file?.isSome && !data.includes_preview) ||
     (!file?.isSome && data.includes_preview) ||
     (data.includes_preview && data.delete_preview)) = false := by
  cases file? with
  | some f =>
    simp only [processPreviewSlot] at h
    split at h
    · simp at h
    · split at h
      · next hcond => simp [hcond.1, hcond.2]
      · split at h
        · simp at h
        · simp at h
  | none =>
    simp only [processPreviewSlot] at h
    split at h
    · next hcond => simp [hcond.2]
    · split at h
      · simp at h
      · next h2 hinc => simp [Bool.not_eq_true] at hinc; simp [hinc]

/-- A successful background block implies none of the three inconsistent
flag/file combinations held for the background slot. -/
theorem backgroundSlot_ok_flags {env : Env} {old : OldChartData}
    {data : ChartEditData} {sid cid : String} {file? : Option FileU} {r}
    (h : processBackgroundSlot env old data file? sid cid = .ok r) :
    ((file?.isSome && !data.includes_background) ||
     (!file?.isSome && data.includes_background) ||
     (data.includes_background && data.delete_background)) = false := by
  cases file? with
  | some f =>
    simp only [processBackgroundSlot] at h
    split at h
    · simp at h
    · split at h
      · next hcond => simp [hcond.1, hcond.2]
      · split at h
        · simp at h
        · simp at h
  | none =>
    simp only [processBackgroundSlot] at h
    split at h
    · next hcond => simp [hcond.2]
    · split at h
      · simp at h
      · next h2 hinc => simp [Bool.not_eq_true] at hinc; simp [hinc]

/-- In a successful chart block, `chart_updated` is set exactly when the
chart includes flag was set. -/
theorem chartSlot_ok_updated {env : Env} {old : OldChartData}
    {data : ChartEditData} {sid cid : String} {file? : Option FileU}
    {u : List UploadItem} {d : List HashKey} {upd : Bool} {ch : Option String}
    (h : processChartSlot env old data file? sid cid = .ok (u, d, upd, ch)) :
    upd = data.includes_chart := by
  cases file? with
  | none =>
    simp only [processChartSlot] at h
    split at h
    · simp at h
    · next hinc =>
      simp [Bool.not_eq_true] at hinc
      simp only [Except.ok.injEq, Prod.mk.injEq] at h
      simp [hinc, ← h.2.2.1]
  | some f =>
    simp only [processChartSlot] at h
    split at h
    · simp at h
    · split at h
      · next hinc =>
        split at h
        · simp at h
        · split at h
          · simp at h
          · split at h
            · simp only [Except.ok.injEq, Prod.mk.injEq] at h
              simp [hinc, ← h.2.2.1]
            · simp only [Except.ok.injEq, Prod.mk.injEq] at h
              simp [hinc, ← h.2.2.1]
      · simp at h

/-- In a successful audio block, `chart_updated` is set exactly when the
audio includes flag was set. -/
theorem audioSlot_ok_updated {env : Env} {old : OldChartData}
    {data : ChartEditData} {sid cid : String} {file? : Option FileU}
    {u : List UploadItem} {d : List HashKey} {upd : Bool} {ch : Option String}
    (h : processAudioSlot env old data file? sid cid = .ok (u, d, upd, ch)) :
    upd = data.includes_audio := by
  cases file? with
  | none =>
    simp only [processAudioSlot] at h
    split at h
    · simp at h
    · next hinc =>
      simp [Bool.not_eq_true] at hinc
      simp only [Except.ok.injEq, Prod.mk.injEq] at h
      simp [hinc, ← h.2.2.1]
  | some f =>
    simp only [processAudioSlot] at h
    split at h
    · simp at h
    · split at h
      · next hinc =>
        split at h
        · simp at h
        · split at h
          · simp only [Except.ok.injEq, Prod.mk.injEq] at h
            simp [hinc, ← h.2.2.1]
          · simp only [Except.ok.injEq, Prod.mk.injEq] at h
            simp [hinc, ← h.2.2.1]
      · simp at h

/-- A chart file whose bytes match no recognized dialect and no canonical
marker makes the chart block fail. -/
theorem chartSlot_detect_none (env : Env) (old : OldChartData)
    (data : ChartEditData) (sid cid : String) (f : FileU)
    (hinc : data.includes_chart = true)
    (hdet : env.detectEdit f.bytes = none) :
    exOk (processChartSlot env old data (some f) sid cid) = false := by
  simp only [processChartSlot]
  split
  · rfl
  · simp [hinc, hdet, exOk]

/-- When the validation phase fails for every possible chart row, the
edit flow rejects the request with no object-store event and no
relational mutation in its trace. -/
theorem editRun_reject {env : Env} {cid : String} {data : ChartEditData}
    {files : EditFiles} {sid : String} {row : Option OldChartData}
    (h : ∀ old, row = some old →
      exOk (processAll env old data files sid cid) = false) :
    exOk (editRun env cid data files sid row).result = false ∧
    (editRun env cid data files sid row).trace.filter isS3Event = [] ∧
    (editRun env cid data files sid row).trace.filter isDbWrite = [] := by
  unfold editRun
  split
  · exact ⟨rfl, rfl, rfl⟩
  split
  · exact ⟨rfl, rfl, rfl⟩
  split
  · simp [exOk, isS3Event, isDbWrite]
  next old =>
    split
    · simp [exOk, isS3Event, isDbWrite]
    split
    · simp [exOk, isS3Event, isDbWrite]
    · next p hp =>
      exfalso
      have hh := h old rfl
      rw [hp] at hh
      simp [exOk] at hh

/-- When the validation phase fails, the upload flow rejects the request
with an empty side-effect trace. -/
theorem uploadRun_reject {env : Env} {data : ChartUploadData}
    {jF cF aF : FileU} {pF bF : Option FileU} {sid cid : String} {cd : Bool}
    (h : exOk (uploadPipeline env data jF cF aF pF bF cd) = false) :
    exOk (uploadRun env data jF cF aF pF bF sid cid cd).result = false ∧
    (uploadRun env data jF cF aF pF bF sid cid cd).trace = [] := by
  unfold uploadRun
  cases hp : uploadPipeline env data jF cF aF pF bF cd with
  | error e => simp [exOk]
  | ok r => rw [hp] at h; simp [exOk] at h

/-- A successful edit validation phase implies no attached file was
oversized. -/
theorem processAll_ok_no_oversize {env : Env} {old : OldChartData}
    {data : ChartEditData} {files : EditFiles} {sid cid : String}
    {p : Pipeline} (h : processAll env old data files sid cid = .ok p) :
    editAnyOversized files = false := by
  obtain ⟨rc, rj, ra, rp, rb, hc, hj, ha, hpv, hb, -⟩ := processAll_ok_inv h
  simp [editAnyOversized, chartSlot_ok_size hc, jacketSlot_ok_size hj,
    audioSlot_ok_size ha, previewSlot_ok_size hpv, backgroundSlot_ok_size hb]

/-- A successful upload validation phase implies no attached file was
oversized. -/
theorem uploadPipeline_ok_no_oversize {env : Env} {data : ChartUploadData}
    {jF cF aF : FileU} {pF bF : Option FileU} {cd : Bool} {r : UploadPipe}
    (h : uploadPipeline env data jF cF aF pF bF cd = .ok r) :
    uploadAnyOversized jF cF aF pF bF = false := by
  simp only [uploadPipeline] at h
  split at h
  · simp at h
  split at h
  · simp at h
  split at h
  · simp at h
  split at h
  · simp at h
  split at h
  · simp at h
  simp_all [uploadAnyOversized]

/-- A successful upload validation phase implies the detector marked the
script valid. -/
theorem uploadPipeline_ok_valid {env : Env} {data : ChartUploadData}
    {jF cF aF : FileU} {pF bF : Option FileU} {cd : Bool} {r : UploadPipe}
    (h : uploadPipeline env data jF cF aF pF bF cd = .ok r) :
    (env.detectUpload cF.bytes).valid = true := by
  simp only [uploadPipeline] at h
  split at h
  · simp at h
  split at h
  · simp at h
  split at h
  · simp at h
  split at h
  · simp at h
  split at h
  · simp at h
  cases hcf : env.checkFile jF "image" with
  | error e => rw [hcf] at h; simp at h
  | ok jb =>
    rw [hcf] at h
    simp only at h
    split at h
    · simp at h
    · next hv => simpa using hv

/-- C4 amended: a request with an oversized file is always rejected with
no object-store call and no relational-store mutation; in the upload
flow the trace is empty, while the edit flow has already performed the
chart-lookup read before the size check (so "zero database calls" does
not hold there — see the counterexample). -/
theorem oversize_rejected_before_store_io :
    (∀ (env : Env) (cid : String) (data : ChartEditData) (files : EditFiles)
        (sid : String) (row : Option OldChartData),
      editAnyOversized files = true →
        exOk (editRun env cid data files sid row).result = false ∧
        (editRun env cid data files sid row).trace.filter isS3Event = [] ∧
        (editRun env cid data files sid row).trace.filter isDbWrite = []) ∧
    (∀ (env : Env) (data : ChartUploadData) (jF cF aF : FileU)
        (pF bF : Option FileU) (sid cid : String) (cd : Bool),
      uploadAnyOversized jF cF aF pF bF = true →
        exOk (uploadRun env data jF cF aF pF bF sid cid cd).result = false ∧
        (uploadRun env data jF cF aF pF bF sid cid cd).trace = []) := by
  constructor
  · intro env cid data files sid row hov
    apply editRun_reject
    intro old hrow
    cases hpa : processAll env old data files sid cid with
    | error e => rfl
    | ok p =>
      exact absurd (processAll_ok_no_oversize hpa) (by simp [hov])
  · intro env data jF cF aF pF bF sid cid cd hov
    apply uploadRun_reject
    cases hp : uploadPipeline env data jF cF aF pF bF cd with
    | error e => rfl
    | ok r => exact absurd (uploadPipeline_ok_no_oversize hp) (by simp [hov])

/-- Counterexample to C4 as stated: an edit request with an over-limit
audio file is rejected, but its trace already contains a database call —
the chart-lookup read issued before the size check. -/
theorem edit_oversize_audio_db_read_cex :
    editAnyOversized { audio := some ⟨52428801, []⟩ } = true ∧
    exOk (editRun baseEnv wCid { includes_audio := true }
        { audio := some ⟨52428801, []⟩ } "owner1" (some oldBase)).result
      = false ∧
    (editRun baseEnv wCid { includes_audio := true }
        { audio := some ⟨52428801, []⟩ } "owner1" (some oldBase)).trace.filter
        isDbEvent = [Event.dbFetchChart wCid] := by decide

/-- Witness for the amended C4 at concrete oversized inputs in both
flows. -/
theorem oversize_rejected_before_store_io_witness :
    (exOk (editRun baseEnv wCid { includes_audio := true }
        { audio := some ⟨52428801, []⟩ } "owner1" (some oldBase)).result
      = false ∧
     (editRun baseEnv wCid { includes_audio := true }
        { audio := some ⟨52428801, []⟩ } "owner1" (some oldBase)).trace.filter
        isS3Event = [] ∧
     (editRun baseEnv wCid { includes_audio := true }
        { audio := some ⟨52428801, []⟩ } "owner1" (some oldBase)).trace.filter
        isDbWrite = []) ∧
    (exOk (uploadRun baseEnv ⟨0, "t", "a", "r", some [], none, false, false⟩
        ⟨7864321, []⟩ ⟨1, []⟩ ⟨1, []⟩ none none "s" wCid false).result
      = false ∧
     (uploadRun baseEnv ⟨0, "t", "a", "r", some [], none, false, false⟩
        ⟨7864321, []⟩ ⟨1, []⟩ ⟨1, []⟩ none none "s" wCid false).trace = []) :=
  ⟨oversize_rejected_before_store_io.1 baseEnv wCid { includes_audio := true }
      { audio := some ⟨52428801, []⟩ } "owner1" (some oldBase) (by decide),
   oversize_rejected_before_store_io.2 baseEnv
      ⟨0, "t", "a", "r", some [], none, false, false⟩
      ⟨7864321, []⟩ ⟨1, []⟩ ⟨1, []⟩ none none "s" wCid false (by decide)⟩

/-- C6: a request whose chart script bytes match no recognized dialect
and no canonical marker is rejected before any blob or metadata
mutation: the upload flow's trace is empty (zero object-store calls),
and the edit flow's trace holds no object-store event and no
relational-store mutation. -/
theorem unrecognized_script_rejected_without_store_io :
    (∀ (env : Env) (data : ChartUploadData) (jF cF aF : FileU)
        (pF bF : Option FileU) (sid cid : String) (cd : Bool),
      (env.detectUpload cF.bytes).valid = false →
        exOk (uploadRun env data jF cF aF pF bF sid cid cd).result = false ∧
        (uploadRun env data jF cF aF pF bF sid cid cd).trace = []) ∧
    (∀ (env : Env) (cid : String) (data : ChartEditData) (files : EditFiles)
        (sid : String) (row : Option OldChartData) (f : FileU),
      files.chart = some f → data.includes_chart = true →
      env.detectEdit f.bytes = none →
        exOk (editRun env cid data files sid row).result = false ∧
        (editRun env cid data files sid row).trace.filter isS3Event = [] ∧
        (editRun env cid data files sid row).trace.filter isDbWrite = []) := by
  constructor
  · intro env data jF cF aF pF bF sid cid cd hval
    apply uploadRun_reject
    cases hp : uploadPipeline env data jF cF aF pF bF cd with
    | error e => rfl
    | ok r => exact absurd (uploadPipeline_ok_valid hp) (by simp [hval])
  · intro env cid data files sid row f hf hinc hdet
    apply editRun_reject
    intro old hrow
    cases hpa : processAll env old data files sid cid with
    | error e => rfl
    | ok p =>
      obtain ⟨rc, rj, ra, rp, rb, hc, -, -, -, -, -⟩ := processAll_ok_inv hpa
      have hd := chartSlot_detect_none env old data sid cid f hinc hdet
      rw [hf] at hc
      rw [hc] at hd
      simp [exOk] at hd

/-- Witness for C6: an unrecognized script is rejected in both flows at
concrete inputs (`baseEnv`'s detector recognizes nothing). -/
theorem unrecognized_script_rejected_witness :
    (exOk (uploadRun baseEnv ⟨0, "t", "a", "r", some [], none, false, false⟩
        ⟨1, []⟩ ⟨1, [9]⟩ ⟨1, []⟩ none none "s" wCid false).result = false ∧
     (uploadRun baseEnv ⟨0, "t", "a", "r", some [], none, false, false⟩
        ⟨1, []⟩ ⟨1, [9]⟩ ⟨1, []⟩ none none "s" wCid false).trace = []) ∧
    (exOk (editRun baseEnv wCid { includes_chart := true }
        { chart := some ⟨1, [9]⟩ } "owner1" (some oldBase)).result = false ∧
     (editRun baseEnv wCid { includes_chart := true }
        { chart := some ⟨1, [9]⟩ } "owner1" (some oldBase)).trace.filter
        isS3Event = [] ∧
     (editRun baseEnv wCid { includes_chart := true }
        { chart := some ⟨1, [9]⟩ } "owner1" (some oldBase)).trace.filter
        isDbWrite = []) :=
  ⟨unrecognized_script_rejected_without_store_io.1 baseEnv
      ⟨0, "t", "a", "r", some [], none, false, false⟩
      ⟨1, []⟩ ⟨1, [9]⟩ ⟨1, []⟩ none none "s" wCid false rfl,
   unrecognized_script_rejected_without_store_io.2 baseEnv wCid
      { includes_chart := true } { chart := some ⟨1, [9]⟩ } "owner1"
      (some oldBase) ⟨1, [9]⟩ rfl rfl rfl⟩

/-- C7: an edit request whose intent flags are inconsistent with the
attached files is rejected, with no object-store event and no
relational-store mutation in its trace. -/
theorem inconsistent_flags_rejected (env : Env) (cid : String)
    (data : ChartEditData) (files : EditFiles) (sid : String)
    (row : Option OldChartData)
    (h : editFlagsInconsistent data files = true) :
    exOk (editRun env cid data files sid row).result = false ∧
    (editRun env cid data files sid row).trace.filter isS3Event = [] ∧
    (editRun env cid data files sid row).trace.filter isDbWrite = [] := by
  apply editRun_reject
  intro old hrow
  cases hpa : processAll env old data files sid cid with
  | error e => rfl
  | ok p =>
    exfalso
    obtain ⟨rc, rj, ra, rp, rb, hc, hj, ha, hpv, hb, -⟩ := processAll_ok_inv hpa
    have h1 := chartSlot_ok_flags hc
    have h2 := jacketSlot_ok_flags hj
    have h3 := audioSlot_ok_flags ha
    have h4 := previewSlot_ok_flags hpv
    have h5 := backgroundSlot_ok_flags hb
    simp only [editFlagsInconsistent, h1, h2, h3, h4, h5, bne_self_eq_false,
      Bool.or_false, Bool.false_or] at h
    exact absurd h (by simp)

/-- Witness for C7: an edit with `includes_audio` set and no audio file,
and one with simultaneous include and delete on the preview slot, are
both rejected without store mutations. -/
theorem inconsistent_flags_rejected_witness :
    (exOk (editRun baseEnv wCid { includes_audio := true } {} "owner1"
        (some oldBase)).result = false ∧
     (editRun baseEnv wCid { includes_audio := true } {} "owner1"
        (some oldBase)).trace.filter isS3Event = [] ∧
     (editRun baseEnv wCid { includes_audio := true } {} "owner1"
        (some oldBase)).trace.filter isDbWrite = []) ∧
    (exOk (editRun baseEnv wCid
        { includes_preview := true, delete_preview := true }
        { preview := some ⟨1, [4]⟩ } "owner1" (some oldBase)).result
      = false ∧
     (editRun baseEnv wCid
        { includes_preview := true, delete_preview := true }
        { preview := some ⟨1, [4]⟩ } "owner1" (some oldBase)).trace.filter
        isS3Event = [] ∧
     (editRun baseEnv wCid
        { includes_preview := true, delete_preview := true }
        { preview := some ⟨1, [4]⟩ } "owner1" (some oldBase)).trace.filter
        isDbWrite = []) :=
  ⟨inconsistent_flags_rejected baseEnv wCid { includes_audio := true } {}
      "owner1" (some oldBase) (by decide),
   inconsistent_flags_rejected baseEnv wCid
      { includes_preview := true, delete_preview := true }
      { preview := some ⟨1, [4]⟩ } "owner1" (some oldBase) (by decide)⟩

/-- The dedup loop emits each distinct hash at most once, and never a
hash already recorded as uploaded. -/
theorem dedup_nodup_aux (l : List UploadItem) (seen : List String) :
    ((dedupUploads l seen).map (fun f => f.hash)).Nodup ∧
    ∀ h ∈ (dedupUploads l seen).map (fun f => f.hash), h ∉ seen := by
  induction l generalizing seen with
  | nil => simp [dedupUploads]
  | cons f t ih =>
    by_cases hmem : f.hash ∈ seen
    · simpa [dedupUploads, hmem] using ih seen
    · have ih2 := ih (f.hash :: seen)
      refine ⟨?_, ?_⟩
      · simp only [dedupUploads, if_neg hmem, List.map_cons, List.nodup_cons]
        refine ⟨fun hcon => (ih2.2 f.hash hcon) (by simp), ih2.1⟩
      · intro h hh
        simp only [dedupUploads, if_neg hmem, List.map_cons,
          List.mem_cons] at hh
        rcases hh with rfl | hh
        · exact hmem
        · intro hseen
          exact (ih2.2 h hh) (by simp [hseen])

/-- Every hash present in the batch survives the dedup loop (provided it
was not already recorded as uploaded). -/
theorem dedup_mem_aux (l : List UploadItem) (seen : List String) (h : String)
    (hmem : h ∈ l.map (fun f => f.hash)) (hns : h ∉ seen) :
    h ∈ (dedupUploads l seen).map (fun f => f.hash) := by
  induction l generalizing seen with
  | nil => simp at hmem
  | cons f t ih =>
    simp only [List.map_cons, List.mem_cons] at hmem
    by_cases hc : f.hash ∈ seen
    · rcases hmem with rfl | hmem
      · exact absurd hc hns
      · simpa [dedupUploads, hc] using ih seen hmem hns
    · rcases hmem with rfl | hmem
      · simp [dedupUploads, hc]
      · by_cases he : h = f.hash
        · subst he; simp [dedupUploads, hc]
        · have hns2 : h ∉ f.hash :: seen := by simp [he, hns]
          simp only [dedupUploads, if_neg hc, List.map_cons, List.mem_cons]
          exact Or.inr (ih (f.hash :: seen) hmem hns2)

/-- In a duplicate-free list, an element that occurs has filter-count
one. -/
theorem filter_eq_length_one (l : List String) (h : String)
    (hn : l.Nodup) (hm : h ∈ l) :
    (l.filter fun x => x = h).length = 1 := by
  induction l with
  | nil => simp at hm
  | cons a t ih =>
    rcases List.nodup_cons.1 hn with ⟨hna, hnt⟩
    by_cases ha : a = h
    · subst ha
      have ht : (t.filter fun x => x = a) = [] := by
        rw [List.filter_eq_nil_iff]
        intro x hx
        simp only [decide_eq_true_eq]
        rintro rfl
        exact hna hx
      simp [List.filter_cons, ht]
    · have hm2 : h ∈ t := by
        rcases List.mem_cons.1 hm with rfl | hm2
        · exact absurd rfl ha
        · exact hm2
      simp [List.filter_cons, ha, ih hnt hm2]

/-- Counting upload events over a mapped batch followed by
non-upload events reduces to counting hashes in the batch. -/
theorem uploadCount_map_events (l : List UploadItem) (tail : List Event)
    (h : String) (htail : ∀ e ∈ tail, uploadEventHash e = none) :
    uploadCount
      ((l.map fun f => Event.s3Upload f.hash f.path f.contentType) ++ tail) h
      = ((l.map fun f => f.hash).filter fun x => x = h).length := by
  induction l with
  | nil =>
    simp only [List.map_nil, List.nil_append, uploadCount]
    have ht : (tail.filter fun e => uploadEventHash e = some h) = [] := by
      rw [List.filter_eq_nil_iff]
      intro e he
      simp [htail e he]
    simp [ht]
  | cons f t ih =>
    by_cases hf : f.hash = h <;>
      simp [uploadCount, uploadEventHash, List.filter_cons, hf] <;>
      simpa [uploadCount] using ih

/-- The upload hashes of a mapped batch followed by non-upload events
are exactly the batch's hashes. -/
theorem trace_filterMap_hashes (l : List UploadItem) (tail : List Event)
    (htail : ∀ e ∈ tail, uploadEventHash e = none) :
    ((l.map fun f => Event.s3Upload f.hash f.path f.contentType)
        ++ tail).filterMap uploadEventHash
      = l.map fun f => f.hash := by
  induction l with
  | nil =>
    simp only [List.map_nil, List.nil_append]
    rw [List.filterMap_eq_nil_iff]
    exact htail
  | cons f t ih =>
    simp [List.filterMap_cons, uploadEventHash, ih]

/-- Inversion of a successful upload run: the trace is the deduplicated
upload batch followed by the two relational statements, and the created
row is built from the validation phase's payloads. -/
theorem uploadRun_ok_inv {env : Env} {data : ChartUploadData}
    {jF cF aF : FileU} {pF bF : Option FileU} {sid cid : String} {cd : Bool}
    {t : List Event} {c : OldChartData}
    (h : uploadRun env data jF cF aF pF bF sid cid cd = ⟨t, .ok c⟩) :
    ∃ r, uploadPipeline env data jF cF aF pF bF cd = .ok r ∧
      t = (dedupUploads (uploadItemsOf env sid cid r) []).map
            (fun f => Event.s3Upload f.hash f.path f.contentType)
          ++ [Event.dbCreateChart cid, Event.dbUpdateCooldown] ∧
      c = mkUploadRecord env sid cid r := by
  unfold uploadRun at h
  cases hp : uploadPipeline env data jF cF aF pF bF cd with
  | error e => rw [hp] at h; simp at h
  | ok r =>
    rw [hp] at h
    simp only [UploadResult.mk.injEq, Except.ok.injEq] at h
    exact ⟨r, rfl, h.1.symm, h.2.symm⟩

/-- The upload hashes of the edit flow's object-store batch are exactly
the hashes of its deduplicated pending uploads. -/
theorem s3Phase_upload_hashes (env : Env) (old : OldChartData)
    (sid cid : String) (p : Pipeline) :
    (s3Phase env old sid cid p).filterMap uploadEventHash
      = if deletedHashesList old p.oldDeletes ≠ [] ∨ p.uploads ≠ []
        then (dedupUploads p.uploads []).map fun f => f.hash
        else [] := by
  simp only [s3Phase]
  split
  · rw [List.filterMap_append, List.filterMap_append]
    have h1 : ((deletedHashesList old p.oldDeletes).map
        (fun h => Event.s3Delete (s!"{sid}/{cid}/" ++ optStr h))).filterMap
        uploadEventHash = [] := by
      rw [List.filterMap_eq_nil_iff]
      intro e he
      rcases List.mem_map.1 he with ⟨x, _, hx⟩
      simp [← hx, uploadEventHash]
    have h2 : ((dedupUploads p.uploads []).map
        (fun f => Event.s3Upload f.hash f.path f.contentType)).filterMap
        uploadEventHash = (dedupUploads p.uploads []).map fun f => f.hash := by
      have h0 := trace_filterMap_hashes (dedupUploads p.uploads []) []
        (by simp)
      simpa using h0
    have h3 : ((if p.chartUpdated = true
        then env.replays.map Event.s3ReplayDelete else []).filterMap
        uploadEventHash) = [] := by
      split
      · rw [List.filterMap_eq_nil_iff]
        intro e he
        rcases List.mem_map.1 he with ⟨x, _, hx⟩
        simp [← hx, uploadEventHash]
      · rfl
    rw [h1, h2, h3]
    simp
  · rfl

/-- C8: within one request's blob batch, uploads are deduplicated by
hash.  For a successful upload, the trace's upload-event hashes are
duplicate-free and every slot pointer of the created row (derived
jacket variants included) has exactly one create operation — two slots
with identical bytes share one blob.  In the edit flow's object-store
batch the upload-event hashes are likewise duplicate-free. -/
theorem blob_batch_dedup_single_create :
    (∀ (env : Env) (data : ChartUploadData) (jF cF aF : FileU)
        (pF bF : Option FileU) (sid cid : String) (cd : Bool)
        (t : List Event) (c : OldChartData),
      uploadRun env data jF cF aF pF bF sid cid cd = ⟨t, .ok c⟩ →
        (t.filterMap uploadEventHash).Nodup ∧
        uploadCount t c.jacket_file_hash = 1 ∧
        uploadCount t c.music_file_hash = 1 ∧
        uploadCount t c.chart_file_hash = 1 ∧
        uploadCount t c.background_v1_file_hash = 1 ∧
        uploadCount t c.background_v3_file_hash = 1 ∧
        (∀ h, c.preview_file_hash = some h → uploadCount t h = 1) ∧
        (∀ h, c.background_file_hash = some h → uploadCount t h = 1)) ∧
    (∀ (env : Env) (old : OldChartData) (sid cid : String) (p : Pipeline),
      ((s3Phase env old sid cid p).filterMap uploadEventHash).Nodup) := by
  have hcount : ∀ (env : Env) (sid cid : String) (r : UploadPipe)
      (h : String),
      h ∈ (uploadItemsOf env sid cid r).map (fun f => f.hash) →
      uploadCount ((dedupUploads (uploadItemsOf env sid cid r) []).map
          (fun f => Event.s3Upload f.hash f.path f.contentType)
        ++ [Event.dbCreateChart cid, Event.dbUpdateCooldown]) h = 1 := by
    intro env sid cid r h hmem
    rw [uploadCount_map_events _ _ _
      (by intro e he; simp at he; rcases he with rfl | rfl <;> rfl)]
    exact filter_eq_length_one _ _ (dedup_nodup_aux _ []).1
      (dedup_mem_aux _ [] h hmem (by simp))
  constructor
  · intro env data jF cF aF pF bF sid cid cd t c hrun
    obtain ⟨r, hp, ht, hc⟩ := uploadRun_ok_inv hrun
    subst ht
    subst hc
    refine ⟨?_, ?_, ?_, ?_, ?_, ?_, ?_, ?_⟩
    · rw [trace_filterMap_hashes _ _
        (by intro e he; simp at he; rcases he with rfl | rfl <;> rfl)]
      exact (dedup_nodup_aux _ []).1
    · exact hcount env sid cid r _ (by simp [uploadItemsOf, mkUploadRecord])
    · exact hcount env sid cid r _ (by simp [uploadItemsOf, mkUploadRecord])
    · exact hcount env sid cid r _ (by simp [uploadItemsOf, mkUploadRecord])
    · exact hcount env sid cid r _ (by simp [uploadItemsOf, mkUploadRecord])
    · exact hcount env sid cid r _ (by simp [uploadItemsOf, mkUploadRecord])
    · intro h hh
      simp only [mkUploadRecord] at hh
      rcases hpb : r.previewBytes with _ | pb
      · simp [hpb] at hh
      · rw [hpb] at hh
        simp only [Option.map_some', Option.some.injEq] at hh
        subst hh
        exact hcount env sid cid r _ (by simp [uploadItemsOf, hpb])
    · intro h hh
      simp only [mkUploadRecord] at hh
      rcases hbb : r.backgroundBytes with _ | bb
      · simp [hbb] at hh
      · rw [hbb] at hh
        simp only [Option.map_some', Option.some.injEq] at hh
        subst hh
        exact hcount env sid cid r _ (by simp [uploadItemsOf, hbb])
  · intro env old sid cid p
    rw [s3Phase_upload_hashes]
    split
    · exact (dedup_nodup_aux _ []).1
    · exact List.nodup_nil

/-- Witness for C8: a concrete upload in which the audio and preview
slots carry identical bytes issues exactly one create for their shared
hash, and the trace's upload hashes are duplicate-free. -/
theorem blob_batch_dedup_single_create_witness :
    uploadCount
      (uploadRun envU dataU ⟨1, [5]⟩ ⟨1, [9]⟩ ⟨1, [7]⟩ (some ⟨1, [7]⟩) none
        "s" wCid false).trace
      (mkUploadRecord envU "s" wCid pipeU).music_file_hash = 1 ∧
    ((uploadRun envU dataU ⟨1, [5]⟩ ⟨1, [9]⟩ ⟨1, [7]⟩ (some ⟨1, [7]⟩) none
        "s" wCid false).trace.filterMap uploadEventHash).Nodup :=
  ⟨(blob_batch_dedup_single_create.1 envU dataU ⟨1, [5]⟩ ⟨1, [9]⟩ ⟨1, [7]⟩
      (some ⟨1, [7]⟩) none "s" wCid false
      (uploadRun envU dataU ⟨1, [5]⟩ ⟨1, [9]⟩ ⟨1, [7]⟩ (some ⟨1, [7]⟩) none
        "s" wCid false).trace
      (mkUploadRecord envU "s" wCid pipeU) rfl).2.1,
   (blob_batch_dedup_single_create.1 envU dataU ⟨1, [5]⟩ ⟨1, [9]⟩ ⟨1, [7]⟩
      (some ⟨1, [7]⟩) none "s" wCid false
      (uploadRun envU dataU ⟨1, [5]⟩ ⟨1, [9]⟩ ⟨1, [7]⟩ (some ⟨1, [7]⟩) none
        "s" wCid false).trace
      (mkUploadRecord envU "s" wCid pipeU) rfl).1⟩

/-- Inversion of a successful edit run: the chart row existed, ownership
held, validation and query construction succeeded, the trace is the
lookup read followed by the object-store batch and the relational
phase, and the committed row is the hash update applied to the old
row. -/
theorem editRun_ok_inv {env : Env} {cid : String} {data : ChartEditData}
    {files : EditFiles} {sid : String} {row : Option OldChartData}
    {t : List Event} {c : OldChartData}
    (h : editRun env cid data files sid row = ⟨t, .ok c⟩) :
    ∃ old p u, row = some old ∧ old.author = sid ∧
      processAll env old data files sid cid = .ok p ∧
      buildUpdate data files p = .ok u ∧
      t = Event.dbFetchChart cid :: (s3Phase env old sid cid p
            ++ dbPhase old p) ∧
      c = applyFileHashUpdate old u := by
  unfold editRun at h
  split at h
  · simp at h
  split at h
  · simp at h
  split at h
  · simp at h
  next old =>
    split at h
    · simp at h
    next hown =>
      split at h
      · simp at h
      next p hp =>
        split at h
        · simp at h
        next u hu =>
          simp only [EditResult.mk.injEq, Except.ok.injEq] at h
          refine ⟨old, p, u, rfl, ?_, hp, hu, ?_, h.2.symm⟩
          · simpa using hown
          · simpa using h.1.symm

/-- The dedup loop with an empty seen list is empty only for an empty
batch. -/
theorem dedup_nil_iff (l : List UploadItem) :
    dedupUploads l [] = [] ↔ l = [] := by
  cases l with
  | nil => simp [dedupUploads]
  | cons f t => simp [dedupUploads]

/-- The replay deletes of the object-store batch: present exactly when
the batch is entered and `chart_updated` is set. -/
theorem s3Phase_replay_filter (env : Env) (old : OldChartData)
    (sid cid : String) (p : Pipeline) :
    (s3Phase env old sid cid p).filter isReplayDelete =
      if (deletedHashesList old p.oldDeletes ≠ [] ∨ p.uploads ≠ []) ∧
          p.chartUpdated = true
      then env.replays.map Event.s3ReplayDelete else [] := by
  simp only [s3Phase]
  split
  next hcond =>
    rw [List.filter_append, List.filter_append]
    have h1 : ((deletedHashesList old p.oldDeletes).map
        (fun h => Event.s3Delete (s!"{sid}/{cid}/" ++ optStr h))).filter
        isReplayDelete = [] := by
      rw [List.filter_eq_nil_iff]
      intro e he
      rcases List.mem_map.1 he with ⟨x, _, hx⟩
      simp [← hx, isReplayDelete]
    have h2 : ((dedupUploads p.uploads []).map
        (fun f => Event.s3Upload f.hash f.path f.contentType)).filter
        isReplayDelete = [] := by
      rw [List.filter_eq_nil_iff]
      intro e he
      rcases List.mem_map.1 he with ⟨x, _, hx⟩
      simp [← hx, isReplayDelete]
    have h3 : ((if p.chartUpdated = true
        then env.replays.map Event.s3ReplayDelete else []).filter
        isReplayDelete) = (if p.chartUpdated = true
        then env.replays.map Event.s3ReplayDelete else []) := by
      split
      · rw [List.filter_eq_self]
        intro e he
        rcases List.mem_map.1 he with ⟨x, _, hx⟩
        simp [← hx, isReplayDelete]
      · rfl
    rw [h1, h2, h3]
    by_cases hcu : p.chartUpdated = true
    · rw [if_pos hcu, if_pos ⟨hcond, hcu⟩]
      simp
    · rw [if_neg hcu, if_neg (by tauto)]
      simp
  next hcond =>
    rw [if_neg (by tauto)]
    rfl

/-- The object-store batch holds a blob create/delete exactly when it
was entered at all. -/
theorem s3Phase_hasBlobOp (env : Env) (old : OldChartData)
    (sid cid : String) (p : Pipeline) :
    hasBlobOp (s3Phase env old sid cid p) =
      (decide (deletedHashesList old p.oldDeletes ≠ []) ||
       decide (p.uploads ≠ [])) := by
  simp only [s3Phase, hasBlobOp]
  split
  next hcond =>
    rcases hcond with hA | hB
    · obtain ⟨x, l2, hx⟩ := List.exists_cons_of_ne_nil hA
      simp [hx, List.any_append, isBlobOp]
    · have hd : dedupUploads p.uploads [] ≠ [] := by
        rw [Ne, dedup_nil_iff]
        exact hB
      obtain ⟨x, l2, hx⟩ := List.exists_cons_of_ne_nil hd
      simp [hx, List.any_append, isBlobOp, hB]
  next hcond =>
    push_neg at hcond
    simp [hcond.1, hcond.2]

/-- The relational phase holds no replay delete. -/
theorem dbPhase_replay_filter (old : OldChartData) (p : Pipeline) :
    (dbPhase old p).filter isReplayDelete = [] := by
  cases hcu : p.chartUpdated <;> simp [dbPhase, isReplayDelete, hcu]

/-- The relational phase holds no blob operation. -/
theorem dbPhase_hasBlobOp (old : OldChartData) (p : Pipeline) :
    hasBlobOp (dbPhase old p) = false := by
  cases hcu : p.chartUpdated <;> simp [dbPhase, hasBlobOp, isBlobOp, hcu]

/-- The relational phase deletes the chart's leaderboards exactly when
`chart_updated` is set. -/
theorem dbPhase_mem_lb (old : OldChartData) (p : Pipeline) :
    (Event.dbDeleteLeaderboards old.id ∈ dbPhase old p) ↔
      p.chartUpdated = true := by
  cases hcu : p.chartUpdated <;> simp [dbPhase, hcu]

/-- The object-store batch never deletes leaderboards. -/
theorem s3Phase_no_lb (env : Env) (old : OldChartData) (sid cid : String)
    (p : Pipeline) (i : String) :
    Event.dbDeleteLeaderboards i ∉ s3Phase env old sid cid p := by
  intro hmem
  have hs3 := s3Phase_all_s3 env old sid cid p _ hmem
  simp [isS3Event] at hs3

/-- C10 amended: in a successful edit, the chart's leaderboard records
are deleted exactly when a chart script or audio file was submitted
with its includes flag set (even when byte-identical), but the replay
blobs under the chart's `replays/` path are deleted only when,
additionally, the request's blob batch is nonempty (some blob create or
delete happened): a byte-identical-only resubmission wipes the
leaderboards yet leaves every replay blob in place.  Edits touching
only jacket, preview, background or metadata leave both untouched. -/
theorem leaderboard_replay_deletion_scope (env : Env) (cid : String)
    (data : ChartEditData) (files : EditFiles) (sid : String)
    (old : OldChartData) (t : List Event) (c : OldChartData)
    (h : editRun env cid data files sid (some old) = ⟨t, .ok c⟩) :
    ((Event.dbDeleteLeaderboards old.id ∈ t) ↔
      (data.includes_chart || data.includes_audio) = true) ∧
    ((files.chart.isSome && data.includes_chart) ||
     (files.audio.isSome && data.includes_audio))
      = (data.includes_chart || data.includes_audio) ∧
    (t.filter isReplayDelete =
      if ((data.includes_chart || data.includes_audio) && hasBlobOp t) = true
      then env.replays.map Event.s3ReplayDelete else []) := by
  obtain ⟨old2, p, u, hrow, hown, hp, hu, ht, hc⟩ := editRun_ok_inv h
  have hoo : old = old2 := Option.some.inj hrow
  subst hoo
  obtain ⟨rc, rj, ra, rp, rb, hcS, hjS, haS, hpS, hbS, hpeq⟩ :=
    processAll_ok_inv hp
  obtain ⟨cu, cd2, cUpd, cH⟩ := rc
  obtain ⟨au, ad2, aUpd, aH⟩ := ra
  have hcu := chartSlot_ok_updated hcS
  have hau := audioSlot_ok_updated haS
  have hcf := chartSlot_ok_flags hcS
  have haf := audioSlot_ok_flags haS
  have hCU : p.chartUpdated = (data.includes_chart || data.includes_audio) := by
    rw [hpeq]
    simp [hcu, hau]
  subst ht
  refine ⟨?_, ?_, ?_⟩
  · simp only [List.mem_cons, List.mem_append]
    constructor
    · rintro (heq | hmem | hmem)
      · cases heq
      · exact absurd hmem (s3Phase_no_lb env old sid cid p old.id)
      · rw [← hCU]
        exact (dbPhase_mem_lb old p).1 hmem
    · intro hC
      right; right
      exact (dbPhase_mem_lb old p).2 (by rw [hCU, hC])
  · rw [hcf, haf]
    simp [Bool.and_self]
  · rw [List.filter_cons]
    have hfetch : isReplayDelete (Event.dbFetchChart cid) = false := rfl
    rw [hfetch]
    simp only [Bool.false_eq_true, if_false]
    rw [List.filter_append, s3Phase_replay_filter, dbPhase_replay_filter,
      List.append_nil]
    have hblob : hasBlobOp (Event.dbFetchChart cid ::
        (s3Phase env old sid cid p ++ dbPhase old p)) =
        (decide (deletedHashesList old p.oldDeletes ≠ []) ||
         decide (p.uploads ≠ [])) := by
      simp only [hasBlobOp, List.any_cons, List.any_append]
      have h1 : isBlobOp (Event.dbFetchChart cid) = false := rfl
      have h2 := dbPhase_hasBlobOp old p
      simp only [hasBlobOp] at h2
      rw [h1, h2]
      have h3 := s3Phase_hasBlobOp env old sid cid p
      simp only [hasBlobOp] at h3
      rw [h3]
      simp
    rw [hblob]
    by_cases hb : (deletedHashesList old p.oldDeletes ≠ [] ∨ p.uploads ≠ [])
    · have hbd : (decide (deletedHashesList old p.oldDeletes ≠ []) ||
          decide (p.uploads ≠ [])) = true := by
        rcases hb with hA | hB
        · simp [hA]
        · simp [hB]
      rw [hbd]
      by_cases hC : (data.includes_chart || data.includes_audio) = true
      · rw [if_pos ⟨hb, by rw [hCU, hC]⟩]
        simp [hC]
      · rw [if_neg (by rw [hCU]; tauto)]
        have hCf : (data.includes_chart || data.includes_audio) = false := by
          simpa using hC
        simp [hCf]
    · have hbd : (decide (deletedHashesList old p.oldDeletes ≠ []) ||
          decide (p.uploads ≠ [])) = false := by
        push_neg at hb
        simp [hb.1, hb.2]
      rw [hbd]
      rw [if_neg (by tauto)]
      simp

/-- Counterexample to C10 as stated: an edit that resubmits
byte-identical audio with `includes_audio` set succeeds, deletes the
leaderboards, and yet deletes none of the chart's replay blobs (the
replay cleanup sits inside the skipped object-store batch). -/
theorem noop_audio_edit_keeps_replays_cex :
    envR.replays ≠ [] ∧
    exOk (editRun envR wCid { includes_audio := true }
        { audio := some ⟨1, [7]⟩ } "owner1" (some oldBase)).result = true ∧
    (editRun envR wCid { includes_audio := true }
        { audio := some ⟨1, [7]⟩ } "owner1" (some oldBase)).trace.filter
        isReplayDelete = [] ∧
    Event.dbDeleteLeaderboards oldBase.id ∈
      (editRun envR wCid { includes_audio := true }
        { audio := some ⟨1, [7]⟩ } "owner1" (some oldBase)).trace := by
  refine ⟨by decide, ?_, by decide, by decide⟩
  decide

/-- Witness for the amended C10: a successful edit submitting changed
audio deletes the leaderboards and every replay blob. -/
theorem leaderboard_replay_deletion_scope_witness :
    Event.dbDeleteLeaderboards oldBase.id ∈
      (editRun envR2 wCid { includes_audio := true }
        { audio := some ⟨1, [7]⟩ } "owner1" (some oldBase)).trace ∧
    (editRun envR2 wCid { includes_audio := true }
        { audio := some ⟨1, [7]⟩ } "owner1" (some oldBase)).trace.filter
        isReplayDelete = envR2.replays.map Event.s3ReplayDelete :=
  ⟨(leaderboard_replay_deletion_scope envR2 wCid { includes_audio := true }
      { audio := some ⟨1, [7]⟩ } "owner1" oldBase
      (editRun envR2 wCid { includes_audio := true }
        { audio := some ⟨1, [7]⟩ } "owner1" (some oldBase)).trace
      (((editRun envR2 wCid { includes_audio := true }
        { audio := some ⟨1, [7]⟩ } "owner1"
        (some oldBase)).result).toOption.getD oldBase) rfl).1.mpr
      (by decide),
   ((leaderboard_replay_deletion_scope envR2 wCid { includes_audio := true }
      { audio := some ⟨1, [7]⟩ } "owner1" oldBase
      (editRun envR2 wCid { includes_audio := true }
        { audio := some ⟨1, [7]⟩ } "owner1" (some oldBase)).trace
      (((editRun envR2 wCid { includes_audio := true }
        { audio := some ⟨1, [7]⟩ } "owner1"
        (some oldBase)).result).toOption.getD oldBase) rfl).2.2).trans
      (by decide)⟩

/-- Scenario A at a concrete input: resubmitting byte-identical audio
with `includes_audio` set creates no blob, deletes no blob, and the
committed row's stored audio hash is unchanged (the audio slot, unlike
the jacket slot, is a true no-op). -/
theorem edit_noop_audio_concrete :
    processAudioSlot envR oldBase { includes_audio := true }
      (some ⟨1, [7]⟩) "owner1" wCid = .ok ([], [], true, some "Ha") ∧
    ((editRun envR wCid { includes_audio := true }
        { audio := some ⟨1, [7]⟩ } "owner1"
        (some oldBase)).result.toOption.map
      (fun c => c.music_file_hash)) = some "Ha" := by decide
